import Mathlib

/-!
Verification of the navarkos cluster controller
(`pkg/controller/cluster/clustercontroller.go`).

The Go code is shallowly embedded: annotation maps (`map[string]string`)
become association lists over `String`, Go `int` becomes `Int` (Go integer
division is truncation toward zero, `Int.tdiv`; division by zero panics,
modelled by `Option` with `none` for a panic), and the external
collaborators (federation client, per-cluster REST client, pod queries,
the system clock) become explicit parameters.  Every definition mirrors
the corresponding Go function, keeping its name and its control flow.
-/

namespace Navarkos

/-! ## Association lists: the embedding of Go `map[string]K` -/

/-- Lookup in an association list, the embedding of a Go map read
`v, ok := m[k]` (first binding wins; Go maps have unique keys, which all
operations below preserve). -/
def listGet {α : Type} : List (String × α) → String → Option α
  | [], _ => none
  | (k, v) :: rest, key => if k = key then some v else listGet rest key

/-- Insert or overwrite a binding, the embedding of `m[k] = v`. -/
def listSet {α : Type} : List (String × α) → String → α → List (String × α)
  | [], key, val => [(key, val)]
  | (k, v) :: rest, key, val =>
      if k = key then (key, val) :: rest else (k, v) :: listSet rest key val

/-- Remove a binding, the embedding of `delete(m, k)`. -/
def listDel {α : Type} : List (String × α) → String → List (String × α)
  | [], _ => []
  | (k, v) :: rest, key =>
      if k = key then listDel rest key else (k, v) :: listDel rest key

/-- Annotation maps of a cluster: Go `map[string]string`. -/
abbrev Ann := List (String × String)

/-! ## Go standard-library models: `strconv` and `time` -/

/-- Value of an ASCII digit, `none` for any other character. -/
def digitVal (c : Char) : Option Nat :=
  if '0' ≤ c ∧ c ≤ '9' then some (c.toNat - '0'.toNat) else none

/-- Accumulate a decimal number over a character list; fails on the first
non-digit character. -/
def parseNatCore : List Char → Nat → Option Nat
  | [], acc => some acc
  | c :: cs, acc =>
      match digitVal c with
      | some d => parseNatCore cs (acc * 10 + d)
      | none => none

/-- Model of Go `strconv.Atoi` on the character list of the input: an
optional sign followed by at least one digit, nothing else; out-of-range
values (beyond a signed 64-bit int) are an error, as Go reports `ErrRange`. -/
def goAtoiChars : List Char → Option Int
  | [] => none
  | '+' :: cs =>
      if cs = [] then none else
        (parseNatCore cs 0).bind fun n =>
          if n < 2 ^ 63 then some (Int.ofNat n) else none
  | '-' :: cs =>
      if cs = [] then none else
        (parseNatCore cs 0).bind fun n =>
          if n ≤ 2 ^ 63 then some (-(Int.ofNat n)) else none
  | cs =>
      (parseNatCore cs 0).bind fun n =>
        if n < 2 ^ 63 then some (Int.ofNat n) else none

/-- Model of Go `strconv.Atoi`. -/
def goAtoi (s : String) : Option Int :=
  goAtoiChars s.toList

/-- Model of Go `strconv.ParseBool`: exactly the twelve strings Go
accepts, anything else is an error. -/
def goParseBool (s : String) : Option Bool :=
  if s = "1" ∨ s = "t" ∨ s = "T" ∨ s = "TRUE" ∨ s = "true" ∨ s = "True" then
    some true
  else if s = "0" ∨ s = "f" ∨ s = "F" ∨ s = "FALSE" ∨ s = "false" ∨ s = "False" then
    some false
  else none

/-- Model of Go `time.Time.Format(time.UnixDate)` at whole-second
resolution: timestamps are Unix seconds (`Int`) and the format is modelled
as an injective textual encoding of the second count.  Only the round-trip
with `goParseUnixDate` and the failure of arbitrary strings to parse
matter to the controller. -/
def formatUnixDate (t : Int) : String :=
  "unixdate " ++ toString t

/-- Model of Go `time.Parse(time.UnixDate, s)`: the partial inverse of
`formatUnixDate`; any string not produced by it fails to parse. -/
def goParseUnixDate (s : String) : Option Int :=
  match s.toList with
  | 'u' :: 'n' :: 'i' :: 'x' :: 'd' :: 'a' :: 't' :: 'e' :: ' ' :: rest =>
      goAtoiChars rest
  | _ => none

/-! ## Constants of the `pkg/common` package -/

/-- Modelled from the spec: the annotation key constants of the
`pkg/common` package (the package is not under `src/`); §3 of the spec
lists the keys.  Only their distinctness matters to the controller. -/
def NavarkosClusterStateKey : String := "lifecycle-state"

/-- Modelled from the spec: allocatable-pod-capacity annotation key. -/
def NavarkosClusterCapacityAllocatablePodsKey : String := "capacity-allocatable-pods"

/-- Modelled from the spec: total-pod-capacity annotation key. -/
def NavarkosClusterCapacityPodsKey : String := "capacity-total-pods"

/-- Modelled from the spec: used-pods annotation key. -/
def NavarkosClusterCapacityUsedPodsKey : String := "capacity-used-pods"

/-- Modelled from the spec: system-pods annotation key. -/
def NavarkosClusterCapacitySystemPodsKey : String := "capacity-system-pods"

/-- Modelled from the spec: shutdown-start-time annotation key. -/
def NavarkosClusterShutdownStartTimeKey : String := "shutdown-start-time"

/-- Modelled from the spec: time-to-live-seconds annotation key. -/
def NavarkosClusterTimeToLiveBeforeShutdownKey : String := "time-to-live-seconds"

/-- Modelled from the spec: autoscale-enabled annotation key. -/
def NavarkosClusterAutoScaleKey : String := "autoscale-enabled"

/-- Modelled from the spec: scale-up threshold annotation key. -/
def NavarkosClusterScaleUpCapacityThresholdKey : String := "scale-up-threshold-percent"

/-- Modelled from the spec: scale-down threshold annotation key. -/
def NavarkosClusterScaleDownCapacityThresholdKey : String := "scale-down-threshold-percent"

/-- Modelled from the spec: the `Ready` lifecycle state string. -/
def NavarkosClusterStateReady : String := "Ready"

/-- Modelled from the spec: the `PendingScaleUp` lifecycle state string. -/
def NavarkosClusterStatePendingScaleUp : String := "PendingScaleUp"

/-- Modelled from the spec: the `PendingScaleDown` lifecycle state string. -/
def NavarkosClusterStatePendingScaleDown : String := "PendingScaleDown"

/-- Modelled from the spec: the `PendingShutdown` lifecycle state string. -/
def NavarkosClusterStatePendingShutdown : String := "PendingShutdown"

/-- Modelled from the spec: the `Offline` lifecycle state string. -/
def NavarkosClusterStateOffline : String := "Offline"

/-- Modelled from the spec: the configuration surface consumed by the
core (§6): default TTL before shutdown and default scale thresholds,
the default-value constants of `pkg/common`. -/
structure Config where
  defaultTimeToLiveBeforeShutdown : Int
  defaultScaleUpCapacityThreshold : Int
  defaultScaleDownCapacityThreshold : Int
deriving DecidableEq, Repr

/-! ## Clusters and readiness -/

/-- One entry of a cluster's status condition list
(`v1beta1.ClusterCondition`): only the type and status fields are read. -/
structure ClusterCondition where
  condType : String
  status : String
deriving DecidableEq, Repr

/-- The `v1beta1.ClusterReady` condition type string. -/
def ClusterReadyConditionType : String := "Ready"

/-- The `apiv1.ConditionTrue` status string. -/
def ConditionTrue : String := "True"

/-- The embedding of a `v1beta1.Cluster` as read by this controller:
name, annotation map, presence of a deletion timestamp, and the status
condition list. -/
structure Cluster where
  name : String
  annotations : Ann
  hasDeletionTimestamp : Bool
  conditions : List ClusterCondition
deriving DecidableEq, Repr

/-- Embeds `isClusterReady`: a cluster is ready iff its condition list holds an
entry of type `ClusterReady` with status `ConditionTrue`
(clustercontroller.go:594). -/
def isClusterReady (c : Cluster) : Bool :=
  c.conditions.any fun cond =>
    cond.condType == ClusterReadyConditionType && cond.status == ConditionTrue

/-- Embeds the `DeepCopy` of a cluster: a field-by-field value copy.  In the pure
embedding the copy is propositionally equal to the original; what the Go
code gains from it (no aliasing of the store's object) is automatic here. -/
def clusterDeepCopy (c : Cluster) : Cluster :=
  { name := c.name
    annotations := c.annotations
    hasDeletionTimestamp := c.hasDeletionTimestamp
    conditions := c.conditions }

/-- Embeds `GetReadyClusters` (clustercontroller.go:112): lists the store and
returns deep copies of the ready clusters; a list failure is returned
unchanged.  The Go append loop is the filter-then-copy of the items. -/
def GetReadyClusters (listResult : Except Unit (List Cluster)) :
    Except Unit (List Cluster) :=
  match listResult with
  | .error e => .error e
  | .ok items => .ok ((items.filter fun c => isClusterReady c).map clusterDeepCopy)

/-- Embeds `GetUnreadyClusters` (clustercontroller.go:129): the complementary
filter of `GetReadyClusters`. -/
def GetUnreadyClusters (listResult : Except Unit (List Cluster)) :
    Except Unit (List Cluster) :=
  match listResult with
  | .error e => .error e
  | .ok items => .ok ((items.filter fun c => !isClusterReady c).map clusterDeepCopy)

/-! ## Annotation helpers of the controller -/

/-- Embeds `getAnnotationIntegerValue` (clustercontroller.go:572): read an
annotation, parse it as an integer, fall back to the default when absent,
empty or unparsable. -/
def getAnnotationIntegerValue (ann : Ann) (annotationName : String)
    (defaultValue : Int) : Int :=
  match listGet ann annotationName with
  | some v =>
      if v ≠ "" then
        match goAtoi v with
        | some n => n
        | none => defaultValue
      else defaultValue
  | none => defaultValue

/-- Embeds `IsCapacityDataPresent` (clustercontroller.go:364): all four capacity
annotations are present. -/
def IsCapacityDataPresent (ann : Ann) : Bool :=
  (listGet ann NavarkosClusterCapacityAllocatablePodsKey).isSome &&
  (listGet ann NavarkosClusterCapacityPodsKey).isSome &&
  (listGet ann NavarkosClusterCapacityUsedPodsKey).isSome &&
  (listGet ann NavarkosClusterCapacitySystemPodsKey).isSome

/-- The metrics snapshot built by `getClusterStats`: the Go code carries
it as a `map[string]int` with exactly these four keys. -/
structure Stats where
  allocatablePods : Int
  capacityPods : Int
  usedPods : Int
  usedSystemPods : Int
deriving DecidableEq, Repr

/-- The snapshot as the key-value list of the Go stats map.  Go iterates
the map in arbitrary order; both consumers below are order-independent,
so a fixed order is faithful. -/
def statsList (s : Stats) : List (String × Int) :=
  [(NavarkosClusterCapacityAllocatablePodsKey, s.allocatablePods),
   (NavarkosClusterCapacityPodsKey, s.capacityPods),
   (NavarkosClusterCapacityUsedPodsKey, s.usedPods),
   (NavarkosClusterCapacitySystemPodsKey, s.usedSystemPods)]

/-- Embeds `isStatsChanged` (clustercontroller.go:395): some snapshot entry
differs from the annotation value (parsed with default 0). -/
def isStatsChanged (newStats : Stats) (ann : Ann) : Bool :=
  (statsList newStats).any fun p =>
    getAnnotationIntegerValue ann p.1 0 ≠ p.2

/-- Embeds `updateClusterStats` (clustercontroller.go:406): write every snapshot
entry into the annotations with `strconv.Itoa`. -/
def updateClusterStats (ann : Ann) (stats : Stats) : Ann :=
  (statsList stats).foldl (fun a p => listSet a p.1 (toString p.2)) ann

/-! ## The lifecycle decision rules -/

/-- Embeds `markClusterToShutDownIfNoPods` (clustercontroller.go:482): when no
user pods remain (`usedPods == usedPodsSystemNS`), the cluster is `Ready`
and no shutdown timer exists, stamp the timer with the current time; when
user pods exist and a timer exists, clear it.  Returns the (possibly
mutated) annotations and the changed flag. -/
def markClusterToShutDownIfNoPods (now : Int) (ann : Ann) : Ann × Bool :=
  let usedPods := getAnnotationIntegerValue ann NavarkosClusterCapacityUsedPodsKey 0
  let usedPodsSystemNS := getAnnotationIntegerValue ann NavarkosClusterCapacitySystemPodsKey 0
  if usedPods = usedPodsSystemNS then
    match listGet ann NavarkosClusterShutdownStartTimeKey with
    | none =>
        if (listGet ann NavarkosClusterStateKey).getD "" = NavarkosClusterStateReady then
          (listSet ann NavarkosClusterShutdownStartTimeKey (formatUnixDate now), true)
        else (ann, false)
    | some _ => (ann, false)
  else
    match listGet ann NavarkosClusterShutdownStartTimeKey with
    | some _ => (listDel ann NavarkosClusterShutdownStartTimeKey, true)
    | none => (ann, false)

/-- Embeds `shutDownClusterIfTTLExpired` (clustercontroller.go:512): when the
shutdown timer annotation parses and the (annotation-or-default) TTL is
positive and has elapsed, set the state to `PendingShutdown` and clear
the timer.  Elapsed time is `int(time.Since(start).Seconds())`, whole
seconds of `now - start`. -/
def shutDownClusterIfTTLExpired (cfg : Config) (now : Int) (ann : Ann) : Ann × Bool :=
  match listGet ann NavarkosClusterShutdownStartTimeKey with
  | some timeStr =>
      match goParseUnixDate timeStr with
      | some start =>
          let ttl := getAnnotationIntegerValue ann
            NavarkosClusterTimeToLiveBeforeShutdownKey cfg.defaultTimeToLiveBeforeShutdown
          if ttl > 0 ∧ now - start ≥ ttl then
            (listDel (listSet ann NavarkosClusterStateKey NavarkosClusterStatePendingShutdown)
               NavarkosClusterShutdownStartTimeKey, true)
          else (ann, false)
      | none => (ann, false)
  | none => (ann, false)

/-- Embeds `markClusterForScalingIfPodsHitThresholds` (clustercontroller.go:528):
when autoscale is enabled and the state is `Ready`, compute
`(userPods * 100) / userCapacityPods` with Go integer division (truncation
toward zero) and compare against the thresholds, scale-up first.  Go
panics on a zero divisor — an unguarded `/` — modelled as `none`. -/
def markClusterForScalingIfPodsHitThresholds (cfg : Config) (ann : Ann) :
    Option (Ann × Bool) :=
  let usedPods := getAnnotationIntegerValue ann NavarkosClusterCapacityUsedPodsKey 0
  let usedSysPods := getAnnotationIntegerValue ann NavarkosClusterCapacitySystemPodsKey 0
  let capacityPods := getAnnotationIntegerValue ann NavarkosClusterCapacityPodsKey 0
  match listGet ann NavarkosClusterAutoScaleKey with
  | none => some (ann, false)
  | some autoScaleEnabledStr =>
      match goParseBool autoScaleEnabledStr with
      | some true =>
          if (listGet ann NavarkosClusterStateKey).getD "" = NavarkosClusterStateReady then
            let scaleUpCapacityThreshold := getAnnotationIntegerValue ann
              NavarkosClusterScaleUpCapacityThresholdKey cfg.defaultScaleUpCapacityThreshold
            let scaleDownCapacityThreshold := getAnnotationIntegerValue ann
              NavarkosClusterScaleDownCapacityThresholdKey cfg.defaultScaleDownCapacityThreshold
            let userPods := usedPods - usedSysPods
            let userCapacityPods := capacityPods - usedSysPods
            if userCapacityPods = 0 then none
            else
              let usedOverCapacity := Int.tdiv (userPods * 100) userCapacityPods
              if usedOverCapacity ≥ scaleUpCapacityThreshold then
                some (listSet ann NavarkosClusterStateKey NavarkosClusterStatePendingScaleUp, true)
              else if usedOverCapacity ≤ scaleDownCapacityThreshold then
                some (listSet ann NavarkosClusterStateKey NavarkosClusterStatePendingScaleDown, true)
              else some (ann, false)
          else some (ann, false)
      | _ => some (ann, false)

/-- The decision block of `UpdateClusterStatus` (clustercontroller.go:323):
when capacity data is absent, write the snapshot and stop; otherwise the
Go chain `updateCluster = updateCluster || rule(cluster)` short-circuits,
so the first rule reporting a change ends the evaluation.  Returns the
annotations and the `updateCluster` flag; `none` is a rule-4 panic. -/
def runLifecycleRules (cfg : Config) (now : Int) (newStats : Stats) (ann : Ann) :
    Option (Ann × Bool) :=
  if IsCapacityDataPresent ann then
    if isStatsChanged newStats ann then
      some (updateClusterStats ann newStats, true)
    else
      match markClusterToShutDownIfNoPods now ann with
      | (ann2, true) => some (ann2, true)
      | (ann2, false) =>
          match shutDownClusterIfTTLExpired cfg now ann2 with
          | (ann3, true) => some (ann3, true)
          | (ann3, false) => markClusterForScalingIfPodsHitThresholds cfg ann3
  else
    some (updateClusterStats ann newStats, true)

/-! ## The controller state and the reconciliation engine -/

/-- The embedding of `sets.String`: a duplicate-free list of names (every
operation below preserves freedom from duplicates, and the controller
starts from the empty set).  Go iterates a set in arbitrary order; the
embedding keeps the list order. -/
abbrev StringSet := List String

/-- Embeds `sets.String.Insert`: idempotent insertion. -/
def setInsert (s : StringSet) (n : String) : StringSet :=
  if n ∈ s then s else n :: s

/-- Embeds `sets.String.Delete`. -/
def setDelete (s : StringSet) (n : String) : StringSet :=
  s.filter fun m => m ≠ n

/-- Embeds `sets.String.Difference`: the members of `s` not in `other`. -/
def setDifference (s other : StringSet) : StringSet :=
  s.filter fun m => m ∉ other

/-- A per-cluster client handle (`ClusterClient`); its construction and
its remote calls are external, so only its identity matters here. -/
structure ClusterClient where
  handleId : Nat
deriving DecidableEq, Repr

/-- The `ClusterController` fields the embedded operations touch
(`knownClusterSet`, `clusterKubeClientMap`, `OnClusterChange`), together
with an effect trace: how often the change callback fired and which
cluster updates were persisted successfully. -/
structure CCState where
  knownClusterSet : StringSet
  clusterKubeClientMap : List (String × ClusterClient)
  onClusterChangeRegistered : Bool
  notifies : Nat
  persisted : List (String × Ann)
deriving DecidableEq, Repr

/-- Fire `OnClusterChange` when a callback is registered (the Go
`if cc.OnClusterChange != nil` guard). -/
def fireOnClusterChange (st : CCState) : CCState :=
  if st.onClusterChangeRegistered then { st with notifies := st.notifies + 1 } else st

/-- Embeds `delFromClusterSetByName` (clustercontroller.go:154): remove the name
from the known set and its client from the cache, then fire the change
callback. -/
def delFromClusterSetByName (st : CCState) (clusterName : String) : CCState :=
  fireOnClusterChange
    { st with
      knownClusterSet := setDelete st.knownClusterSet clusterName
      clusterKubeClientMap := listDel st.clusterKubeClientMap clusterName }

/-- The external `NewClusterClientSet` collaborator: `none` models a
construction error (or a nil client). -/
abbrev ClientFactory := Cluster → Option ClusterClient

/-- Embeds `updateClusterClient` (clustercontroller.go:231): construct a client
via the factory; on failure cache nothing and return the error, on
success cache and return the client. -/
def updateClusterClient (factory : ClientFactory) (st : CCState) (c : Cluster) :
    CCState × Option ClusterClient :=
  match factory c with
  | none => (st, none)
  | some client =>
      ({ st with clusterKubeClientMap := listSet st.clusterKubeClientMap c.name client },
       some client)

/-- Embeds `GetClusterClient` (clustercontroller.go:243): return the cached
client, constructing and caching one when none is cached. -/
def GetClusterClient (factory : ClientFactory) (st : CCState) (c : Cluster) :
    CCState × Option ClusterClient :=
  match listGet st.clusterKubeClientMap c.name with
  | some clusterClient => (st, some clusterClient)
  | none => updateClusterClient factory st c

/-- Embeds `addToClusterSet` (clustercontroller.go:200): insert the name into
the known set; create a client eagerly when the lifecycle-state
annotation is absent or `Ready`.  No change callback fires here. -/
def addToClusterSet (factory : ClientFactory) (st : CCState) (c : Cluster) : CCState :=
  let st1 := { st with knownClusterSet := setInsert st.knownClusterSet c.name }
  match listGet c.annotations NavarkosClusterStateKey with
  | some clusterStatus =>
      if clusterStatus = NavarkosClusterStateReady then
        (updateClusterClient factory st1 c).1
      else st1
  | none => (updateClusterClient factory st1 c).1

/-- Errors surfaced by `GetClusterDeployment` (clustercontroller.go:254):
no cached client for the cluster, or the cluster is not ready. -/
inductive ClusterOpError where
  | noClientForCluster (name : String)
  | clusterNotReady (name : String)
deriving DecidableEq, Repr

/-- Embeds `GetClusterDeployment` (clustercontroller.go:254) up to its remote
call: error when no client is cached (without constructing one), error
when the cluster is not ready, otherwise return the client the remote
deployment query would use. -/
def GetClusterDeployment (st : CCState) (c : Cluster) :
    Except ClusterOpError ClusterClient :=
  match listGet st.clusterKubeClientMap c.name with
  | none => .error (.noClientForCluster c.name)
  | some clusterClient =>
      if !isClusterReady c then .error (.clusterNotReady c.name)
      else .ok clusterClient

deriving instance DecidableEq for Except

/-- A pod phase as read from a pod list (`pod.Status.Phase`). -/
inductive PodPhase where
  | pending
  | running
  | succeeded
  | failed
  | unknown
deriving DecidableEq, Repr

/-- The results of the remote queries `getClusterStats` makes through the
cluster client, provided by the environment: the capacity pair from
`GetClusterPods`, the all-namespace pod list, and the sizes of the
`kube-system` and `oracle-bmc` pod lists. -/
structure PodQueries where
  clusterPods : Except Unit (Int × Int)
  allPods : Except Unit (List PodPhase)
  kubeSystemPods : Except Unit Nat
  bmcPods : Except Unit Nat
deriving DecidableEq, Repr

/-- Embeds `getCountOfUsedPods` (clustercontroller.go:447): count the pods whose
phase is Pending or Running; a list failure is an error. -/
def getCountOfUsedPods (podsResult : Except Unit (List PodPhase)) : Except Unit Int :=
  match podsResult with
  | .error e => .error e
  | .ok pods =>
      .ok (Int.ofNat (pods.countP fun p => p = PodPhase.pending ∨ p = PodPhase.running))

/-- Embeds `getCountOfUsedPodsSystemNS` (clustercontroller.go:464): the size of
the `kube-system` pod list plus the size of the `oracle-bmc` pod list; a
failure of the second query is only logged and counts as zero, a failure
of the first is an error. -/
def getCountOfUsedPodsSystemNS (kubeSystemResult : Except Unit Nat)
    (bmcResult : Except Unit Nat) : Except Unit Int :=
  match kubeSystemResult with
  | .error e => .error e
  | .ok kubeSystemCount =>
      let usedPodsBmcNS := match bmcResult with
        | .error _ => 0
        | .ok bmcCount => bmcCount
      .ok (Int.ofNat (kubeSystemCount + usedPodsBmcNS))

/-- Embeds `getClusterStats` (clustercontroller.go:412): obtain a client through
`GetClusterClient` (erroring only when the client is nil), then run the
three remote queries, short-circuiting on the first failure, and build
the four-entry snapshot. -/
def getClusterStats (factory : ClientFactory) (queries : PodQueries)
    (st : CCState) (c : Cluster) : CCState × Except Unit Stats :=
  match GetClusterClient factory st c with
  | (st1, none) => (st1, .error ())
  | (st1, some _) =>
      match queries.clusterPods with
      | .error e => (st1, .error e)
      | .ok (currentAllocatablePods, currentCapacityPods) =>
          match getCountOfUsedPods queries.allPods with
          | .error e => (st1, .error e)
          | .ok currentUsedPods =>
              match getCountOfUsedPodsSystemNS queries.kubeSystemPods queries.bmcPods with
              | .error e => (st1, .error e)
              | .ok usedSysPods =>
                  (st1, .ok { allocatablePods := currentAllocatablePods
                              capacityPods := currentCapacityPods
                              usedPods := currentUsedPods
                              usedSystemPods := usedSysPods })

/-- The environment of one cluster during a `fullSync` pass: its remote
pod-query results, the result of the mid-pass re-fetch of the cluster
record, and the result of the persisting `Update` call. -/
structure ClusterEnv where
  pods : PodQueries
  refetch : Except Unit Cluster
  persist : Except Unit Unit
deriving DecidableEq, Repr

/-- The per-name environment of a pass. -/
abbrev PassEnv := String → ClusterEnv

/-- One iteration of the add-reconciliation loop of `UpdateClusterStatus`
(clustercontroller.go:279): listed clusters missing from the known set
get an `addToClusterSet`. -/
def syncAddsStep (factory : ClientFactory) (st : CCState) (c : Cluster) : CCState :=
  if c.name ∈ st.knownClusterSet then st else addToClusterSet factory st c

/-- The add-reconciliation loop of `UpdateClusterStatus`. -/
def syncAdds (factory : ClientFactory) (st : CCState) (clusters : List Cluster) : CCState :=
  clusters.foldl (syncAddsStep factory) st

/-- The delete-reconciliation branch of `UpdateClusterStatus`
(clustercontroller.go:286): when the known set and the listed items
differ in size, every name in the difference receives one
`delFromClusterSetByName`.  The list of deleted names is returned
alongside the state as the effect record (the Go `deleted` set; Go's set
iteration order is arbitrary, the embedding keeps list order). -/
def reconcileDeletes (st : CCState) (clusters : List Cluster) : CCState × List String :=
  if st.knownClusterSet.length ≠ clusters.length then
    let observedSet := (clusters.map Cluster.name).foldl setInsert []
    let deleted := setDifference st.knownClusterSet observedSet
    (deleted.foldl delFromClusterSetByName st, deleted)
  else (st, [])

/-- The set-reconciliation phase of `UpdateClusterStatus`: the add loop
followed by the delete branch. -/
def reconcileKnownSet (factory : ClientFactory) (st : CCState)
    (clusters : List Cluster) : CCState × List String :=
  reconcileDeletes (syncAdds factory st clusters) clusters

/-- The per-cluster body of the `UpdateClusterStatus` loop
(clustercontroller.go:297): skip deleting or non-ready clusters, collect
stats (skip on failure), re-fetch the record (skip on failure), re-check
readiness, run the decision rules on the re-fetched annotations, and on a
change persist the cluster (skip on failure) and fire the change
callback.  `none` is a decision-rule panic, which aborts the process. -/
def processCluster (cfg : Config) (now : Int) (factory : ClientFactory)
    (env : PassEnv) (st : CCState) (clusterObj : Cluster) : Option CCState :=
  if clusterObj.hasDeletionTimestamp || !isClusterReady clusterObj then
    some st
  else
    match getClusterStats factory (env clusterObj.name).pods st clusterObj with
    | (st1, .error _) => some st1
    | (st1, .ok newStats) =>
        match (env clusterObj.name).refetch with
        | .error _ => some st1
        | .ok cluster =>
            if !isClusterReady cluster then some st1
            else
              match runLifecycleRules cfg now newStats cluster.annotations with
              | none => none
              | some (_, false) => some st1
              | some (updatedAnn, true) =>
                  match (env clusterObj.name).persist with
                  | .error _ => some st1
                  | .ok _ =>
                      some (fireOnClusterChange
                        { st1 with persisted := st1.persisted ++ [(cluster.name, updatedAnn)] })

/-- Embeds `UpdateClusterStatus` (clustercontroller.go:272), one `fullSync`
pass: a failing list aborts the pass with its error before anything else;
otherwise reconcile the known set against the listed names and process
every listed cluster in order.  The overall `none` is a panic escaping
the pass. -/
def UpdateClusterStatus (cfg : Config) (now : Int) (factory : ClientFactory)
    (env : PassEnv) (listResult : Except Unit (List Cluster)) (st : CCState) :
    Option (CCState × Except Unit Unit) :=
  match listResult with
  | .error e => some (st, .error e)
  | .ok clusters =>
      let st2 := (reconcileKnownSet factory st clusters).1
      match clusters.foldlM (processCluster cfg now factory env) st2 with
      | none => none
      | some st3 => some (st3, .ok ())

/-! ## Association-list and set lemmas -/

theorem listGet_listSet_self {α : Type} (a : List (String × α)) (k : String) (v : α) :
    listGet (listSet a k v) k = some v := by
  induction a with
  | nil => simp [listSet, listGet]
  | cons p rest ih =>
      by_cases h : p.1 = k
      · simp [listSet, h, listGet]
      · simp [listSet, h, listGet, ih]

theorem listGet_listSet_ne {α : Type} (a : List (String × α)) (k q : String) (v : α)
    (h : k ≠ q) : listGet (listSet a k v) q = listGet a q := by
  induction a with
  | nil => simp [listSet, listGet, h]
  | cons p rest ih =>
      by_cases hp : p.1 = k
      · simp [listSet, hp, listGet, h]
      · simp [listSet, hp, listGet, ih]

theorem listGet_listDel_self {α : Type} (a : List (String × α)) (k : String) :
    listGet (listDel a k) k = none := by
  induction a with
  | nil => simp [listDel, listGet]
  | cons p rest ih =>
      by_cases h : p.1 = k
      · simp [listDel, h, ih]
      · simp [listDel, h, listGet, ih]

theorem listGet_listDel_ne {α : Type} (a : List (String × α)) (k q : String)
    (h : k ≠ q) : listGet (listDel a k) q = listGet a q := by
  induction a with
  | nil => simp [listDel, listGet]
  | cons p rest ih =>
      by_cases hp : p.1 = k
      · have : p.1 ≠ q := by rw [hp]; exact h
        simp [listDel, hp, listGet, this, ih, h]
      · simp [listDel, hp, listGet, ih]

theorem mem_setInsert (s : StringSet) (n m : String) :
    m ∈ setInsert s n ↔ m = n ∨ m ∈ s := by
  unfold setInsert
  by_cases h : n ∈ s
  · simp [h]
    intro hm
    rw [hm]
    exact h
  · simp [h]

theorem nodup_setInsert (s : StringSet) (n : String) (h : s.Nodup) :
    (setInsert s n).Nodup := by
  unfold setInsert
  by_cases hn : n ∈ s
  · simpa [hn]
  · simp only [hn, if_false]
    rw [List.nodup_cons]
    exact ⟨hn, h⟩

theorem mem_setDelete (s : StringSet) (n m : String) :
    m ∈ setDelete s n ↔ m ∈ s ∧ m ≠ n := by
  simp [setDelete]

theorem mem_setDifference (s other : StringSet) (m : String) :
    m ∈ setDifference s other ↔ m ∈ s ∧ m ∉ other := by
  simp [setDifference]

theorem nodup_setDifference (s other : StringSet) (h : s.Nodup) :
    (setDifference s other).Nodup :=
  h.filter _

/-! ## The decision rules leave the annotations alone when they report no
change -/

theorem markClusterToShutDownIfNoPods_false {now : Int} {ann a : Ann}
    (h : markClusterToShutDownIfNoPods now ann = (a, false)) : a = ann := by
  unfold markClusterToShutDownIfNoPods at h
  simp only [] at h
  split at h
  · split at h
    · split at h
      · exact absurd (congrArg Prod.snd h) (by simp)
      · exact (congrArg Prod.fst h).symm
    · exact (congrArg Prod.fst h).symm
  · split at h
    · exact absurd (congrArg Prod.snd h) (by simp)
    · exact (congrArg Prod.fst h).symm

theorem shutDownClusterIfTTLExpired_false {cfg : Config} {now : Int} {ann a : Ann}
    (h : shutDownClusterIfTTLExpired cfg now ann = (a, false)) : a = ann := by
  unfold shutDownClusterIfTTLExpired at h
  simp only [] at h
  split at h
  · split at h
    · split at h
      · exact absurd (congrArg Prod.snd h) (by simp)
      · exact (congrArg Prod.fst h).symm
    · exact (congrArg Prod.fst h).symm
  · exact (congrArg Prod.fst h).symm

theorem markClusterForScalingIfPodsHitThresholds_false {cfg : Config} {ann a : Ann}
    (h : markClusterForScalingIfPodsHitThresholds cfg ann = some (a, false)) : a = ann := by
  unfold markClusterForScalingIfPodsHitThresholds at h
  simp only [] at h
  split at h
  · exact (congrArg Prod.fst (Option.some.inj h)).symm
  · split at h
    · split at h
      · split at h
        · exact absurd h (by simp)
        · split at h
          · exact absurd (congrArg Prod.snd (Option.some.inj h)) (by simp)
          · split at h
            · exact absurd (congrArg Prod.snd (Option.some.inj h)) (by simp)
            · exact (congrArg Prod.fst (Option.some.inj h)).symm
      · exact (congrArg Prod.fst (Option.some.inj h)).symm
    · exact (congrArg Prod.fst (Option.some.inj h)).symm

theorem runLifecycleRules_false {cfg : Config} {now : Int} {newStats : Stats} {ann a : Ann}
    (h : runLifecycleRules cfg now newStats ann = some (a, false)) : a = ann := by
  unfold runLifecycleRules at h
  split at h
  · split at h
    · exact absurd (congrArg Prod.snd (Option.some.inj h)) (by simp)
    · split at h
      · exact absurd (congrArg Prod.snd (Option.some.inj h)) (by simp)
      · rename_i ann2 heq2
        split at h
        · exact absurd (congrArg Prod.snd (Option.some.inj h)) (by simp)
        · rename_i ann3 heq3
          have h3 : ann3 = ann2 := shutDownClusterIfTTLExpired_false heq3
          have h2 : ann2 = ann := markClusterToShutDownIfNoPods_false heq2
          rw [h3, h2] at h
          exact markClusterForScalingIfPodsHitThresholds_false h
  · exact absurd (congrArg Prod.snd (Option.some.inj h)) (by simp)

theorem runLifecycleRules_none {cfg : Config} {now : Int} {newStats : Stats} {ann : Ann}
    (h : runLifecycleRules cfg now newStats ann = none) :
    markClusterForScalingIfPodsHitThresholds cfg ann = none := by
  unfold runLifecycleRules at h
  split at h
  · split at h
    · exact absurd h (by simp)
    · split at h
      · exact absurd h (by simp)
      · rename_i ann2 heq2
        split at h
        · exact absurd h (by simp)
        · rename_i ann3 heq3
          have h3 : ann3 = ann2 := shutDownClusterIfTTLExpired_false heq3
          have h2 : ann2 = ann := markClusterToShutDownIfNoPods_false heq2
          rw [h3, h2] at h
          exact h
  · exact absurd h (by simp)

/-! ## C1: are all four rules evaluated on every pass? -/

/-- C1 counterexample.  A `Ready` cluster with no capacity annotations,
whose snapshot shows no user pods: the pass writes the capacity
annotations and reports a change, yet the output carries no
shutdown-start-time stamp, although the shutdown-on-idle rule fires on
exactly these just-updated values — so the later rules did not operate on
them, contradicting the claim. -/
theorem c1_counterexample :
    IsCapacityDataPresent [(NavarkosClusterStateKey, NavarkosClusterStateReady)] = false
    ∧ (runLifecycleRules ⟨1800, 80, 20⟩ 1000 ⟨10, 10, 5, 5⟩
        [(NavarkosClusterStateKey, NavarkosClusterStateReady)]).map (fun p => p.2)
      = some true
    ∧ (runLifecycleRules ⟨1800, 80, 20⟩ 1000 ⟨10, 10, 5, 5⟩
        [(NavarkosClusterStateKey, NavarkosClusterStateReady)]).map
          (fun p => listGet p.1 NavarkosClusterShutdownStartTimeKey)
      = some none
    ∧ (runLifecycleRules ⟨1800, 80, 20⟩ 1000 ⟨10, 10, 5, 5⟩
        [(NavarkosClusterStateKey, NavarkosClusterStateReady)]).map
          (fun p => (markClusterToShutDownIfNoPods 1000 p.1).2)
      = some true := by
  decide

/-- C1 as amended: the rules short-circuit.  When any capacity annotation
is absent the pass only writes the four capacity annotations — the
lifecycle-state and shutdown-start-time annotations are untouched and
rules 2-4 are not evaluated; when capacity data is present and the stats
comparison already reports a change, the pass likewise stops after
writing the stats.  At most one rule fires per pass. -/
theorem c1_amended_short_circuit (cfg : Config) (now : Int) (newStats : Stats) (ann : Ann) :
    (IsCapacityDataPresent ann = false →
      runLifecycleRules cfg now newStats ann = some (updateClusterStats ann newStats, true)
      ∧ listGet (updateClusterStats ann newStats) NavarkosClusterStateKey
          = listGet ann NavarkosClusterStateKey
      ∧ listGet (updateClusterStats ann newStats) NavarkosClusterShutdownStartTimeKey
          = listGet ann NavarkosClusterShutdownStartTimeKey)
    ∧ (IsCapacityDataPresent ann = true → isStatsChanged newStats ann = true →
        runLifecycleRules cfg now newStats ann = some (updateClusterStats ann newStats, true)) := by
  constructor
  · intro h
    refine ⟨by simp [runLifecycleRules, h], ?_, ?_⟩
    · simp only [updateClusterStats, statsList, List.foldl]
      rw [listGet_listSet_ne _ _ _ _ (by decide), listGet_listSet_ne _ _ _ _ (by decide),
        listGet_listSet_ne _ _ _ _ (by decide), listGet_listSet_ne _ _ _ _ (by decide)]
    · simp only [updateClusterStats, statsList, List.foldl]
      rw [listGet_listSet_ne _ _ _ _ (by decide), listGet_listSet_ne _ _ _ _ (by decide),
        listGet_listSet_ne _ _ _ _ (by decide), listGet_listSet_ne _ _ _ _ (by decide)]
  · intro h hs
    simp [runLifecycleRules, h, hs]

/-- C1 amended, witnessed at the counterexample input (capacity absent)
and at a capacity-present input whose used-pods annotation disagrees with
the snapshot. -/
theorem c1_amended_short_circuit_witness :
    (runLifecycleRules ⟨1800, 80, 20⟩ 1000 ⟨10, 10, 5, 5⟩
        [(NavarkosClusterStateKey, NavarkosClusterStateReady)]
      = some (updateClusterStats [(NavarkosClusterStateKey, NavarkosClusterStateReady)]
          ⟨10, 10, 5, 5⟩, true)
      ∧ listGet (updateClusterStats [(NavarkosClusterStateKey, NavarkosClusterStateReady)]
          ⟨10, 10, 5, 5⟩) NavarkosClusterStateKey
          = listGet [(NavarkosClusterStateKey, NavarkosClusterStateReady)] NavarkosClusterStateKey
      ∧ listGet (updateClusterStats [(NavarkosClusterStateKey, NavarkosClusterStateReady)]
          ⟨10, 10, 5, 5⟩) NavarkosClusterShutdownStartTimeKey
          = listGet [(NavarkosClusterStateKey, NavarkosClusterStateReady)]
              NavarkosClusterShutdownStartTimeKey)
    ∧ runLifecycleRules ⟨1800, 80, 20⟩ 1000 ⟨10, 10, 7, 5⟩
        [(NavarkosClusterStateKey, NavarkosClusterStateReady),
         (NavarkosClusterCapacityAllocatablePodsKey, "10"),
         (NavarkosClusterCapacityPodsKey, "10"),
         (NavarkosClusterCapacityUsedPodsKey, "5"),
         (NavarkosClusterCapacitySystemPodsKey, "5")]
      = some (updateClusterStats
          [(NavarkosClusterStateKey, NavarkosClusterStateReady),
           (NavarkosClusterCapacityAllocatablePodsKey, "10"),
           (NavarkosClusterCapacityPodsKey, "10"),
           (NavarkosClusterCapacityUsedPodsKey, "5"),
           (NavarkosClusterCapacitySystemPodsKey, "5")] ⟨10, 10, 7, 5⟩, true) :=
  ⟨(c1_amended_short_circuit ⟨1800, 80, 20⟩ 1000 ⟨10, 10, 5, 5⟩
      [(NavarkosClusterStateKey, NavarkosClusterStateReady)]).1 (by decide),
   (c1_amended_short_circuit ⟨1800, 80, 20⟩ 1000 ⟨10, 10, 7, 5⟩
      [(NavarkosClusterStateKey, NavarkosClusterStateReady),
       (NavarkosClusterCapacityAllocatablePodsKey, "10"),
       (NavarkosClusterCapacityPodsKey, "10"),
       (NavarkosClusterCapacityUsedPodsKey, "5"),
       (NavarkosClusterCapacitySystemPodsKey, "5")]).2 (by decide) (by decide)⟩

/-! ## C2: idempotence of the decision engine -/

/-- C2 counterexample.  On a `Ready` cluster with no capacity annotations
and an idle snapshot, the first run writes the capacity data and reports
a change, and the second run — on the same snapshot, with no intervening
change — stamps the shutdown timer and reports a change again, refuting
`changed=false` on the second run. -/
theorem c2_counterexample :
    (runLifecycleRules ⟨1800, 80, 20⟩ 1000 ⟨10, 10, 5, 5⟩
        [(NavarkosClusterStateKey, NavarkosClusterStateReady)]).map (fun p => p.2)
      = some true
    ∧ ((runLifecycleRules ⟨1800, 80, 20⟩ 1000 ⟨10, 10, 5, 5⟩
        [(NavarkosClusterStateKey, NavarkosClusterStateReady)]).bind
          (fun p => runLifecycleRules ⟨1800, 80, 20⟩ 1000 ⟨10, 10, 5, 5⟩ p.1)).map
            (fun p => p.2)
      = some true := by
  decide

/-- C2 as amended: the engine is idempotent only from a pass that already
reports no change — `changed=false` leaves the annotations untouched, so
a second run on the same (annotations, snapshot, time) again yields
`changed=false`.  After a changing pass the next run may change again,
because the short-circuit applies at most one rule per pass. -/
theorem c2_amended_fixed_point (cfg : Config) (now : Int) (newStats : Stats) (ann a : Ann)
    (h : runLifecycleRules cfg now newStats ann = some (a, false)) :
    a = ann ∧ runLifecycleRules cfg now newStats a = some (a, false) := by
  have ha : a = ann := runLifecycleRules_false h
  exact ⟨ha, by rw [ha]; rw [ha] at h; exact h⟩

/-- C2 amended, witnessed at a capacity-present input whose annotations
match the snapshot, with user pods present and no shutdown timer: the
pass reports no change and a second pass also reports no change. -/
theorem c2_amended_fixed_point_witness :
    runLifecycleRules ⟨1800, 80, 20⟩ 1000 ⟨10, 10, 5, 3⟩
        [(NavarkosClusterStateKey, NavarkosClusterStateReady),
         (NavarkosClusterCapacityAllocatablePodsKey, "10"),
         (NavarkosClusterCapacityPodsKey, "10"),
         (NavarkosClusterCapacityUsedPodsKey, "5"),
         (NavarkosClusterCapacitySystemPodsKey, "3")]
      = some ([(NavarkosClusterStateKey, NavarkosClusterStateReady),
         (NavarkosClusterCapacityAllocatablePodsKey, "10"),
         (NavarkosClusterCapacityPodsKey, "10"),
         (NavarkosClusterCapacityUsedPodsKey, "5"),
         (NavarkosClusterCapacitySystemPodsKey, "3")], false)
    ∧ ([(NavarkosClusterStateKey, NavarkosClusterStateReady),
         (NavarkosClusterCapacityAllocatablePodsKey, "10"),
         (NavarkosClusterCapacityPodsKey, "10"),
         (NavarkosClusterCapacityUsedPodsKey, "5"),
         (NavarkosClusterCapacitySystemPodsKey, "3")] :Ann)
        = [(NavarkosClusterStateKey, NavarkosClusterStateReady),
         (NavarkosClusterCapacityAllocatablePodsKey, "10"),
         (NavarkosClusterCapacityPodsKey, "10"),
         (NavarkosClusterCapacityUsedPodsKey, "5"),
         (NavarkosClusterCapacitySystemPodsKey, "3")]
    ∧ runLifecycleRules ⟨1800, 80, 20⟩ 1000 ⟨10, 10, 5, 3⟩
        [(NavarkosClusterStateKey, NavarkosClusterStateReady),
         (NavarkosClusterCapacityAllocatablePodsKey, "10"),
         (NavarkosClusterCapacityPodsKey, "10"),
         (NavarkosClusterCapacityUsedPodsKey, "5"),
         (NavarkosClusterCapacitySystemPodsKey, "3")]
      = some ([(NavarkosClusterStateKey, NavarkosClusterStateReady),
         (NavarkosClusterCapacityAllocatablePodsKey, "10"),
         (NavarkosClusterCapacityPodsKey, "10"),
         (NavarkosClusterCapacityUsedPodsKey, "5"),
         (NavarkosClusterCapacitySystemPodsKey, "3")], false) :=
  ⟨by decide,
   (c2_amended_fixed_point ⟨1800, 80, 20⟩ 1000 ⟨10, 10, 5, 3⟩
     [(NavarkosClusterStateKey, NavarkosClusterStateReady),
      (NavarkosClusterCapacityAllocatablePodsKey, "10"),
      (NavarkosClusterCapacityPodsKey, "10"),
      (NavarkosClusterCapacityUsedPodsKey, "5"),
      (NavarkosClusterCapacitySystemPodsKey, "3")]
     [(NavarkosClusterStateKey, NavarkosClusterStateReady),
      (NavarkosClusterCapacityAllocatablePodsKey, "10"),
      (NavarkosClusterCapacityPodsKey, "10"),
      (NavarkosClusterCapacityUsedPodsKey, "5"),
      (NavarkosClusterCapacitySystemPodsKey, "3")] (by decide)).1,
   (c2_amended_fixed_point ⟨1800, 80, 20⟩ 1000 ⟨10, 10, 5, 3⟩
     [(NavarkosClusterStateKey, NavarkosClusterStateReady),
      (NavarkosClusterCapacityAllocatablePodsKey, "10"),
      (NavarkosClusterCapacityPodsKey, "10"),
      (NavarkosClusterCapacityUsedPodsKey, "5"),
      (NavarkosClusterCapacitySystemPodsKey, "3")]
     [(NavarkosClusterStateKey, NavarkosClusterStateReady),
      (NavarkosClusterCapacityAllocatablePodsKey, "10"),
      (NavarkosClusterCapacityPodsKey, "10"),
      (NavarkosClusterCapacityUsedPodsKey, "5"),
      (NavarkosClusterCapacitySystemPodsKey, "3")] (by decide)).2⟩

/-! ## C3: division by zero in the scaling rule -/

/-- C3: the failing input.  A `Ready`, autoscale-enabled cluster whose
capacity-total-pods annotation equals its capacity-system-pods annotation
(userCapacity = 0) makes the unguarded Go integer division
`(userPods * 100) / userCapacityPods` panic — there is no fallback: the
scaling rule and the whole decision block crash (modelled as `none`). -/
theorem c3_division_panic :
    markClusterForScalingIfPodsHitThresholds ⟨1800, 80, 20⟩
        [(NavarkosClusterStateKey, NavarkosClusterStateReady),
         (NavarkosClusterAutoScaleKey, "true"),
         (NavarkosClusterCapacityAllocatablePodsKey, "10"),
         (NavarkosClusterCapacityPodsKey, "10"),
         (NavarkosClusterCapacityUsedPodsKey, "10"),
         (NavarkosClusterCapacitySystemPodsKey, "10"),
         (NavarkosClusterShutdownStartTimeKey, "garbage")]
      = none
    ∧ runLifecycleRules ⟨1800, 80, 20⟩ 1000 ⟨10, 10, 10, 10⟩
        [(NavarkosClusterStateKey, NavarkosClusterStateReady),
         (NavarkosClusterAutoScaleKey, "true"),
         (NavarkosClusterCapacityAllocatablePodsKey, "10"),
         (NavarkosClusterCapacityPodsKey, "10"),
         (NavarkosClusterCapacityUsedPodsKey, "10"),
         (NavarkosClusterCapacitySystemPodsKey, "10"),
         (NavarkosClusterShutdownStartTimeKey, "garbage")]
      = none := by
  decide

/-! ## C7: the threshold-based scaling rule -/

/-- C7: on a `Ready`, autoscale-enabled cluster with non-zero user
capacity, the scaling rule computes
`usedOverCapacityPct = (usedPods - usedSystemPods) * 100 / (capacityPods
- usedSystemPods)` with truncating integer division, marks
`PendingScaleUp` when the percentage reaches the scale-up threshold
(skipping the scale-down check), and otherwise marks `PendingScaleDown`
when it is at most the scale-down threshold. -/
theorem c7_threshold_scaling (cfg : Config) (ann : Ann) (enabledStr : String)
    (hEnabled : listGet ann NavarkosClusterAutoScaleKey = some enabledStr)
    (hParse : goParseBool enabledStr = some true)
    (hReady : (listGet ann NavarkosClusterStateKey).getD "" = NavarkosClusterStateReady)
    (hCap : getAnnotationIntegerValue ann NavarkosClusterCapacityPodsKey 0
        - getAnnotationIntegerValue ann NavarkosClusterCapacitySystemPodsKey 0 ≠ 0) :
    markClusterForScalingIfPodsHitThresholds cfg ann =
      (let usedPods := getAnnotationIntegerValue ann NavarkosClusterCapacityUsedPodsKey 0
       let usedSystemPods := getAnnotationIntegerValue ann NavarkosClusterCapacitySystemPodsKey 0
       let capacityPods := getAnnotationIntegerValue ann NavarkosClusterCapacityPodsKey 0
       let usedOverCapacityPct :=
         Int.tdiv ((usedPods - usedSystemPods) * 100) (capacityPods - usedSystemPods)
       let scaleUpThreshold := getAnnotationIntegerValue ann
         NavarkosClusterScaleUpCapacityThresholdKey cfg.defaultScaleUpCapacityThreshold
       let scaleDownThreshold := getAnnotationIntegerValue ann
         NavarkosClusterScaleDownCapacityThresholdKey cfg.defaultScaleDownCapacityThreshold
       if usedOverCapacityPct ≥ scaleUpThreshold then
         some (listSet ann NavarkosClusterStateKey NavarkosClusterStatePendingScaleUp, true)
       else if usedOverCapacityPct ≤ scaleDownThreshold then
         some (listSet ann NavarkosClusterStateKey NavarkosClusterStatePendingScaleDown, true)
       else some (ann, false)) := by
  unfold markClusterForScalingIfPodsHitThresholds
  rw [hEnabled]
  simp only [hParse, hReady, if_pos rfl, if_neg hCap]
  simp

/-- C7 witnessed at the claim's two examples: capacityPods=100,
usedSystemPods=10, thresholds 80/20; usedPods=91 gives 90 ≥ 80 and
`PendingScaleUp`, usedPods=19 gives 10 ≤ 20 and `PendingScaleDown`. -/
theorem c7_threshold_scaling_witness :
    markClusterForScalingIfPodsHitThresholds ⟨1800, 75, 15⟩
        [(NavarkosClusterStateKey, NavarkosClusterStateReady),
         (NavarkosClusterAutoScaleKey, "true"),
         (NavarkosClusterCapacityPodsKey, "100"),
         (NavarkosClusterCapacityUsedPodsKey, "91"),
         (NavarkosClusterCapacitySystemPodsKey, "10"),
         (NavarkosClusterScaleUpCapacityThresholdKey, "80"),
         (NavarkosClusterScaleDownCapacityThresholdKey, "20")]
      = some (listSet
          [(NavarkosClusterStateKey, NavarkosClusterStateReady),
           (NavarkosClusterAutoScaleKey, "true"),
           (NavarkosClusterCapacityPodsKey, "100"),
           (NavarkosClusterCapacityUsedPodsKey, "91"),
           (NavarkosClusterCapacitySystemPodsKey, "10"),
           (NavarkosClusterScaleUpCapacityThresholdKey, "80"),
           (NavarkosClusterScaleDownCapacityThresholdKey, "20")]
          NavarkosClusterStateKey NavarkosClusterStatePendingScaleUp, true)
    ∧ markClusterForScalingIfPodsHitThresholds ⟨1800, 75, 15⟩
        [(NavarkosClusterStateKey, NavarkosClusterStateReady),
         (NavarkosClusterAutoScaleKey, "true"),
         (NavarkosClusterCapacityPodsKey, "100"),
         (NavarkosClusterCapacityUsedPodsKey, "19"),
         (NavarkosClusterCapacitySystemPodsKey, "10"),
         (NavarkosClusterScaleUpCapacityThresholdKey, "80"),
         (NavarkosClusterScaleDownCapacityThresholdKey, "20")]
      = some (listSet
          [(NavarkosClusterStateKey, NavarkosClusterStateReady),
           (NavarkosClusterAutoScaleKey, "true"),
           (NavarkosClusterCapacityPodsKey, "100"),
           (NavarkosClusterCapacityUsedPodsKey, "19"),
           (NavarkosClusterCapacitySystemPodsKey, "10"),
           (NavarkosClusterScaleUpCapacityThresholdKey, "80"),
           (NavarkosClusterScaleDownCapacityThresholdKey, "20")]
          NavarkosClusterStateKey NavarkosClusterStatePendingScaleDown, true) :=
  ⟨(c7_threshold_scaling ⟨1800, 75, 15⟩
      [(NavarkosClusterStateKey, NavarkosClusterStateReady),
       (NavarkosClusterAutoScaleKey, "true"),
       (NavarkosClusterCapacityPodsKey, "100"),
       (NavarkosClusterCapacityUsedPodsKey, "91"),
       (NavarkosClusterCapacitySystemPodsKey, "10"),
       (NavarkosClusterScaleUpCapacityThresholdKey, "80"),
       (NavarkosClusterScaleDownCapacityThresholdKey, "20")] "true"
      (by decide) (by decide) (by decide) (by decide)).trans (by decide),
   (c7_threshold_scaling ⟨1800, 75, 15⟩
      [(NavarkosClusterStateKey, NavarkosClusterStateReady),
       (NavarkosClusterAutoScaleKey, "true"),
       (NavarkosClusterCapacityPodsKey, "100"),
       (NavarkosClusterCapacityUsedPodsKey, "19"),
       (NavarkosClusterCapacitySystemPodsKey, "10"),
       (NavarkosClusterScaleUpCapacityThresholdKey, "80"),
       (NavarkosClusterScaleDownCapacityThresholdKey, "20")] "true"
      (by decide) (by decide) (by decide) (by decide)).trans (by decide)⟩

/-! ## C9: TTL expiry -/

/-- C9: when the shutdown-start-time annotation exists and parses, the
TTL (annotation value, defaulting to the configured value) is positive
and the elapsed time since the start reaches it, the rule sets the
lifecycle state to `PendingShutdown`, removes the timer and reports a
change; when the annotation is absent, fails to parse, the TTL is not
positive or has not elapsed, the rule changes nothing. -/
theorem c9_ttl_expiry (cfg : Config) (now : Int) (ann : Ann) :
    (listGet ann NavarkosClusterShutdownStartTimeKey = none →
      shutDownClusterIfTTLExpired cfg now ann = (ann, false))
    ∧ (∀ s, listGet ann NavarkosClusterShutdownStartTimeKey = some s →
        goParseUnixDate s = none →
        shutDownClusterIfTTLExpired cfg now ann = (ann, false))
    ∧ (∀ s start, listGet ann NavarkosClusterShutdownStartTimeKey = some s →
        goParseUnixDate s = some start →
        ¬ (getAnnotationIntegerValue ann NavarkosClusterTimeToLiveBeforeShutdownKey
            cfg.defaultTimeToLiveBeforeShutdown > 0
           ∧ now - start ≥ getAnnotationIntegerValue ann
               NavarkosClusterTimeToLiveBeforeShutdownKey cfg.defaultTimeToLiveBeforeShutdown) →
        shutDownClusterIfTTLExpired cfg now ann = (ann, false))
    ∧ (∀ s start, listGet ann NavarkosClusterShutdownStartTimeKey = some s →
        goParseUnixDate s = some start →
        getAnnotationIntegerValue ann NavarkosClusterTimeToLiveBeforeShutdownKey
          cfg.defaultTimeToLiveBeforeShutdown > 0 →
        now - start ≥ getAnnotationIntegerValue ann
          NavarkosClusterTimeToLiveBeforeShutdownKey cfg.defaultTimeToLiveBeforeShutdown →
        shutDownClusterIfTTLExpired cfg now ann
          = (listDel (listSet ann NavarkosClusterStateKey NavarkosClusterStatePendingShutdown)
              NavarkosClusterShutdownStartTimeKey, true)
        ∧ listGet (shutDownClusterIfTTLExpired cfg now ann).1 NavarkosClusterStateKey
            = some NavarkosClusterStatePendingShutdown
        ∧ listGet (shutDownClusterIfTTLExpired cfg now ann).1
            NavarkosClusterShutdownStartTimeKey = none) := by
  refine ⟨?_, ?_, ?_, ?_⟩
  · intro h
    simp [shutDownClusterIfTTLExpired, h]
  · intro s hs hp
    simp [shutDownClusterIfTTLExpired, hs, hp]
  · intro s start hs hp hcond
    simp only [shutDownClusterIfTTLExpired, hs, hp]
    rw [if_neg hcond]
  · intro s start hs hp httl helapsed
    have hres : shutDownClusterIfTTLExpired cfg now ann
        = (listDel (listSet ann NavarkosClusterStateKey NavarkosClusterStatePendingShutdown)
            NavarkosClusterShutdownStartTimeKey, true) := by
      simp only [shutDownClusterIfTTLExpired, hs, hp]
      rw [if_pos ⟨httl, helapsed⟩]
    refine ⟨hres, ?_, ?_⟩
    · rw [hres]
      simp only []
      rw [listGet_listDel_ne _ _ _ (by decide), listGet_listSet_self]
    · rw [hres]
      simp only []
      rw [listGet_listDel_self]

/-- C9 witnessed at the claim's example: the timer started 3600 seconds
ago with a TTL of 1800 seconds, so the cluster is marked
`PendingShutdown` and the timer is cleared; also witnessed at an
annotation map with no timer, which is left unchanged. -/
theorem c9_ttl_expiry_witness :
    (shutDownClusterIfTTLExpired ⟨1800, 80, 20⟩ 5000
        [(NavarkosClusterStateKey, NavarkosClusterStateReady),
         (NavarkosClusterShutdownStartTimeKey, formatUnixDate 1400),
         (NavarkosClusterTimeToLiveBeforeShutdownKey, "1800")]
      = (listDel (listSet
          [(NavarkosClusterStateKey, NavarkosClusterStateReady),
           (NavarkosClusterShutdownStartTimeKey, formatUnixDate 1400),
           (NavarkosClusterTimeToLiveBeforeShutdownKey, "1800")]
          NavarkosClusterStateKey NavarkosClusterStatePendingShutdown)
          NavarkosClusterShutdownStartTimeKey, true)
      ∧ listGet (shutDownClusterIfTTLExpired ⟨1800, 80, 20⟩ 5000
          [(NavarkosClusterStateKey, NavarkosClusterStateReady),
           (NavarkosClusterShutdownStartTimeKey, formatUnixDate 1400),
           (NavarkosClusterTimeToLiveBeforeShutdownKey, "1800")]).1 NavarkosClusterStateKey
          = some NavarkosClusterStatePendingShutdown
      ∧ listGet (shutDownClusterIfTTLExpired ⟨1800, 80, 20⟩ 5000
          [(NavarkosClusterStateKey, NavarkosClusterStateReady),
           (NavarkosClusterShutdownStartTimeKey, formatUnixDate 1400),
           (NavarkosClusterTimeToLiveBeforeShutdownKey, "1800")]).1
          NavarkosClusterShutdownStartTimeKey = none)
    ∧ shutDownClusterIfTTLExpired ⟨1800, 80, 20⟩ 5000
        [(NavarkosClusterStateKey, NavarkosClusterStateReady)]
      = ([(NavarkosClusterStateKey, NavarkosClusterStateReady)], false) :=
  ⟨(c9_ttl_expiry ⟨1800, 80, 20⟩ 5000
      [(NavarkosClusterStateKey, NavarkosClusterStateReady),
       (NavarkosClusterShutdownStartTimeKey, formatUnixDate 1400),
       (NavarkosClusterTimeToLiveBeforeShutdownKey, "1800")]).2.2.2
      (formatUnixDate 1400) 1400 (by decide) (by decide) (by decide) (by decide),
   (c9_ttl_expiry ⟨1800, 80, 20⟩ 5000
      [(NavarkosClusterStateKey, NavarkosClusterStateReady)]).1 (by decide)⟩

/-! ## State-preservation lemmas for stats collection -/

theorem getClusterStats_fst_eq (factory : ClientFactory) (queries : PodQueries)
    (st : CCState) (c : Cluster) :
    (getClusterStats factory queries st c).1 = (GetClusterClient factory st c).1 := by
  unfold getClusterStats
  split
  · rename_i st1 heq
    exact congrArg Prod.fst heq |>.symm
  · rename_i st1 client heq
    have h1 : (GetClusterClient factory st c).1 = st1 := congrArg Prod.fst heq
    split
    · exact h1.symm
    · split
      · exact h1.symm
      · split
        · exact h1.symm
        · exact h1.symm

theorem GetClusterClient_fst_fields (factory : ClientFactory) (st : CCState) (c : Cluster) :
    (GetClusterClient factory st c).1.knownClusterSet = st.knownClusterSet
    ∧ (GetClusterClient factory st c).1.onClusterChangeRegistered = st.onClusterChangeRegistered
    ∧ (GetClusterClient factory st c).1.notifies = st.notifies
    ∧ (GetClusterClient factory st c).1.persisted = st.persisted := by
  unfold GetClusterClient updateClusterClient
  split
  · exact ⟨rfl, rfl, rfl, rfl⟩
  · split
    · exact ⟨rfl, rfl, rfl, rfl⟩
    · exact ⟨rfl, rfl, rfl, rfl⟩

theorem getClusterStats_fst_fields (factory : ClientFactory) (queries : PodQueries)
    (st : CCState) (c : Cluster) :
    (getClusterStats factory queries st c).1.knownClusterSet = st.knownClusterSet
    ∧ (getClusterStats factory queries st c).1.onClusterChangeRegistered
        = st.onClusterChangeRegistered
    ∧ (getClusterStats factory queries st c).1.notifies = st.notifies
    ∧ (getClusterStats factory queries st c).1.persisted = st.persisted := by
  rw [getClusterStats_fst_eq]
  exact GetClusterClient_fst_fields factory st c

/-! ## C5: preconditions of stats collection -/

/-- C5 counterexample.  A cluster with no cached client handle and a
failing readiness predicate: stats collection neither errors with
`NoClientForCluster` (it constructs a client through the factory) nor
with `ClusterNotReady` (it never checks readiness) — it returns a
snapshot. -/
theorem c5_counterexample :
    listGet (CCState.mk [] [] false 0 []).clusterKubeClientMap "c0" = none
    ∧ isClusterReady ⟨"c0", [], false, []⟩ = false
    ∧ (getClusterStats (fun _ => some ⟨1⟩)
        ⟨.ok (10, 10), .ok [PodPhase.running, PodPhase.succeeded], .ok 1, .ok 0⟩
        (CCState.mk [] [] false 0 []) ⟨"c0", [], false, []⟩).2
      = .ok ⟨10, 10, 1, 1⟩
    ∧ listGet (getClusterStats (fun _ => some ⟨1⟩)
        ⟨.ok (10, 10), .ok [PodPhase.running, PodPhase.succeeded], .ok 1, .ok 0⟩
        (CCState.mk [] [] false 0 []) ⟨"c0", [], false, []⟩).1.clusterKubeClientMap "c0"
      = some ⟨1⟩ := by
  decide

/-- C5 as amended: the cached-handle and readiness preconditions the
claim describes belong to the deployment lookup `GetClusterDeployment`,
which errors with `NoClientForCluster` when no handle is cached (without
constructing one) and with `ClusterNotReady` when the cluster is not
ready; stats collection (`getClusterStats`) instead constructs and caches
a client on demand, failing only when construction fails, and performs no
readiness check of its own. -/
theorem c5_amended_preconditions :
    (∀ st c, listGet st.clusterKubeClientMap c.name = none →
        GetClusterDeployment st c = .error (.noClientForCluster c.name))
    ∧ (∀ st c client, listGet st.clusterKubeClientMap c.name = some client →
        isClusterReady c = false →
        GetClusterDeployment st c = .error (.clusterNotReady c.name))
    ∧ (∀ st c client, listGet st.clusterKubeClientMap c.name = some client →
        isClusterReady c = true → GetClusterDeployment st c = .ok client)
    ∧ (∀ factory st c queries, listGet st.clusterKubeClientMap c.name = none →
        factory c = none →
        getClusterStats factory queries st c = (st, .error ()))
    ∧ (∀ factory st c queries client, listGet st.clusterKubeClientMap c.name = none →
        factory c = some client →
        listGet (getClusterStats factory queries st c).1.clusterKubeClientMap c.name
          = some client) := by
  refine ⟨?_, ?_, ?_, ?_, ?_⟩
  · intro st c h
    simp [GetClusterDeployment, h]
  · intro st c client h hr
    simp [GetClusterDeployment, h, hr]
  · intro st c client h hr
    simp [GetClusterDeployment, h, hr]
  · intro factory st c queries h hf
    have hG : GetClusterClient factory st c = (st, none) := by
      simp [GetClusterClient, updateClusterClient, h, hf]
    simp [getClusterStats, hG]
  · intro factory st c queries client h hf
    have hG : GetClusterClient factory st c
        = ({ st with clusterKubeClientMap := listSet st.clusterKubeClientMap c.name client },
           some client) := by
      simp [GetClusterClient, updateClusterClient, h, hf]
    rw [getClusterStats_fst_eq, hG]
    exact listGet_listSet_self st.clusterKubeClientMap c.name client

/-- C5 amended, witnessed on a state with no cached client: the
deployment lookup errors with `NoClientForCluster`; on a state with a
cached client and an unready cluster it errors with `ClusterNotReady`;
and stats collection with a failing factory returns the construction
error without caching. -/
theorem c5_amended_preconditions_witness :
    GetClusterDeployment (CCState.mk [] [] false 0 []) ⟨"c0", [], false, []⟩
      = .error (.noClientForCluster "c0")
    ∧ GetClusterDeployment (CCState.mk [] [("c0", ⟨1⟩)] false 0 []) ⟨"c0", [], false, []⟩
      = .error (.clusterNotReady "c0")
    ∧ GetClusterDeployment (CCState.mk [] [("c0", ⟨1⟩)] false 0 [])
        ⟨"c0", [], false, [⟨ClusterReadyConditionType, ConditionTrue⟩]⟩ = .ok ⟨1⟩
    ∧ getClusterStats (fun _ => none) ⟨.ok (10, 10), .ok [], .ok 0, .ok 0⟩
        (CCState.mk [] [] false 0 []) ⟨"c0", [], false, []⟩
      = ((CCState.mk [] [] false 0 []), .error ()) :=
  ⟨c5_amended_preconditions.1 (CCState.mk [] [] false 0 []) ⟨"c0", [], false, []⟩ (by decide),
   c5_amended_preconditions.2.1 (CCState.mk [] [("c0", ⟨1⟩)] false 0 [])
     ⟨"c0", [], false, []⟩ ⟨1⟩ (by decide) (by decide),
   c5_amended_preconditions.2.2.1 (CCState.mk [] [("c0", ⟨1⟩)] false 0 [])
     ⟨"c0", [], false, [⟨ClusterReadyConditionType, ConditionTrue⟩]⟩ ⟨1⟩ (by decide) (by decide),
   c5_amended_preconditions.2.2.2.1 (fun _ => none) (CCState.mk [] [] false 0 [])
     ⟨"c0", [], false, []⟩ ⟨.ok (10, 10), .ok [], .ok 0, .ok 0⟩ (by decide) rfl⟩

/-! ## C6: the change notification -/

/-- C6 counterexample.  With a registered callback, processing an add of
a brand-new cluster (`addToClusterSet`, the `onAdd` handler) inserts the
name into the known set but fires no notification — the claim's
"invoked after any cluster add" does not hold. -/
theorem c6_counterexample :
    (CCState.mk [] [] true 0 []).onClusterChangeRegistered = true
    ∧ "c0" ∈ (addToClusterSet (fun _ => some ⟨1⟩) (CCState.mk [] [] true 0 [])
        ⟨"c0", [], false, []⟩).knownClusterSet
    ∧ (addToClusterSet (fun _ => some ⟨1⟩) (CCState.mk [] [] true 0 [])
        ⟨"c0", [], false, []⟩).notifies = 0 := by
  decide

/-- C6 as amended: a registered callback fires after any cluster delete
and after any successful annotation persistence during a pass, but a
cluster add never fires it. -/
theorem c6_amended_notification :
    (∀ st n, st.onClusterChangeRegistered = true →
        (delFromClusterSetByName st n).notifies = st.notifies + 1)
    ∧ (∀ factory st c, (addToClusterSet factory st c).notifies = st.notifies)
    ∧ (∀ cfg now factory env st c st1 newStats cluster updatedAnn,
        c.hasDeletionTimestamp = false → isClusterReady c = true →
        getClusterStats factory (env c.name).pods st c = (st1, .ok newStats) →
        (env c.name).refetch = .ok cluster → isClusterReady cluster = true →
        runLifecycleRules cfg now newStats cluster.annotations = some (updatedAnn, true) →
        (env c.name).persist = .ok () →
        st.onClusterChangeRegistered = true →
        ∃ stf, processCluster cfg now factory env st c = some stf
          ∧ stf.notifies = st.notifies + 1) := by
  refine ⟨?_, ?_, ?_⟩
  · intro st n h
    simp [delFromClusterSetByName, fireOnClusterChange, h]
  · intro factory st c
    unfold addToClusterSet updateClusterClient
    split
    · split
      · split
        · rfl
        · rfl
      · rfl
    · split
      · rfl
      · rfl
  · intro cfg now factory env st c st1 newStats cluster updatedAnn
      hd hr hstats hre hready hrules hpersist hreg
    have hcond : (c.hasDeletionTimestamp || !isClusterReady c) = false := by
      rw [hd, hr]
      rfl
    have hfields := getClusterStats_fst_fields factory (env c.name).pods st c
    have hst1 : (getClusterStats factory (env c.name).pods st c).1 = st1 :=
      congrArg Prod.fst hstats
    have hreg1 : st1.onClusterChangeRegistered = true := by
      rw [← hst1, hfields.2.1, hreg]
    have hnot1 : st1.notifies = st.notifies := by
      rw [← hst1, hfields.2.2.1]
    refine ⟨fireOnClusterChange
      { st1 with persisted := st1.persisted ++ [(cluster.name, updatedAnn)] }, ?_, ?_⟩
    · unfold processCluster
      rw [hcond]
      simp only [Bool.false_eq_true, if_false, hstats, hre, hready, hrules, hpersist]
      rfl
    · simp [fireOnClusterChange, hreg1, hnot1]

/-- C6 amended, witnessed concretely: a delete on a registered state
fires once; an add fires nothing; a ready cluster whose re-fetched record
lacks capacity data is persisted and fires once. -/
theorem c6_amended_notification_witness :
    (delFromClusterSetByName (CCState.mk ["c0"] [("c0", ⟨1⟩)] true 0 []) "c0").notifies = 0 + 1
    ∧ (addToClusterSet (fun _ => some ⟨1⟩) (CCState.mk [] [] true 0 [])
        ⟨"c0", [], false, []⟩).notifies = 0
    ∧ ∃ stf, processCluster ⟨1800, 80, 20⟩ 1000 (fun _ => some ⟨1⟩)
        (fun _ => { pods := ⟨.ok (10, 10), .ok [], .ok 0, .ok 0⟩,
                    refetch := .ok ⟨"c0", [], false,
                      [⟨ClusterReadyConditionType, ConditionTrue⟩]⟩,
                    persist := .ok () })
        (CCState.mk [] [("c0", ⟨1⟩)] true 0 [])
        ⟨"c0", [], false, [⟨ClusterReadyConditionType, ConditionTrue⟩]⟩
      = some stf ∧ stf.notifies = (CCState.mk ([] : StringSet)
          [("c0", (⟨1⟩ : ClusterClient))] true 0 []).notifies + 1 :=
  ⟨c6_amended_notification.1 (CCState.mk ["c0"] [("c0", ⟨1⟩)] true 0 []) "c0" rfl,
   c6_amended_notification.2.1 (fun _ => some ⟨1⟩) (CCState.mk [] [] true 0 [])
     ⟨"c0", [], false, []⟩,
   c6_amended_notification.2.2 ⟨1800, 80, 20⟩ 1000 (fun _ => some ⟨1⟩)
     (fun _ => { pods := ⟨.ok (10, 10), .ok [], .ok 0, .ok 0⟩,
                 refetch := .ok ⟨"c0", [], false,
                   [⟨ClusterReadyConditionType, ConditionTrue⟩]⟩,
                 persist := .ok () })
     (CCState.mk [] [("c0", ⟨1⟩)] true 0 [])
     ⟨"c0", [], false, [⟨ClusterReadyConditionType, ConditionTrue⟩]⟩
     (CCState.mk [] [("c0", ⟨1⟩)] true 0 []) ⟨10, 10, 0, 0⟩
     ⟨"c0", [], false, [⟨ClusterReadyConditionType, ConditionTrue⟩]⟩
     [(NavarkosClusterCapacityAllocatablePodsKey, "10"),
      (NavarkosClusterCapacityPodsKey, "10"),
      (NavarkosClusterCapacityUsedPodsKey, "0"),
      (NavarkosClusterCapacitySystemPodsKey, "0")]
     rfl (by decide) (by decide) rfl (by decide) (by decide) rfl rfl⟩

/-! ## C8: per-cluster failures are isolated -/

theorem processCluster_ne_none (cfg : Config) (now : Int) (factory : ClientFactory)
    (env : PassEnv) (st : CCState) (c : Cluster)
    (h : ∀ rc, (env c.name).refetch = .ok rc →
        markClusterForScalingIfPodsHitThresholds cfg rc.annotations ≠ none) :
    processCluster cfg now factory env st c ≠ none := by
  unfold processCluster
  split
  · simp
  · split
    · simp
    · split
      · simp
      · rename_i cluster hre
        split
        · simp
        · split
          · rename_i hrules
            exact absurd (runLifecycleRules_none hrules) (h cluster hre)
          · simp
          · split
            · simp
            · simp

theorem foldlM_processCluster_ne_none (cfg : Config) (now : Int) (factory : ClientFactory)
    (env : PassEnv) (clusters : List Cluster) :
    ∀ st : CCState,
    (∀ c ∈ clusters, ∀ rc, (env c.name).refetch = .ok rc →
        markClusterForScalingIfPodsHitThresholds cfg rc.annotations ≠ none) →
    clusters.foldlM (processCluster cfg now factory env) st ≠ none := by
  induction clusters with
  | nil =>
      intro st h
      simp [List.foldlM]
  | cons c cs ih =>
      intro st h
      rw [List.foldlM_cons]
      cases hpc : processCluster cfg now factory env st c with
      | none =>
          exact absurd hpc (processCluster_ne_none cfg now factory env st c
            (h c (List.mem_cons_self c cs)))
      | some st2 =>
          simpa [hpc] using ih st2 (fun x hx => h x (List.mem_cons_of_mem c hx))

/-- C8: error handling of a `fullSync` pass.  A failing top-level list
aborts the pass with that error, leaving the state untouched and
processing no cluster.  Within a pass, a stats-collection failure, a
re-fetch failure and a persist failure each merely skip the cluster at
hand (the loop body returns the running state and continues); and as long
as no cluster trips the rule-4 division panic, a pass whose list call
succeeded always completes with success, whatever the per-cluster
failures. -/
theorem c8_failure_isolation (cfg : Config) (now : Int) (factory : ClientFactory)
    (env : PassEnv) :
    (∀ e st, UpdateClusterStatus cfg now factory env (.error e) st = some (st, .error e))
    ∧ (∀ st c, c.hasDeletionTimestamp = false → isClusterReady c = true →
        (getClusterStats factory (env c.name).pods st c).2 = .error () →
        processCluster cfg now factory env st c
          = some (getClusterStats factory (env c.name).pods st c).1)
    ∧ (∀ st c st1 newStats, c.hasDeletionTimestamp = false → isClusterReady c = true →
        getClusterStats factory (env c.name).pods st c = (st1, .ok newStats) →
        (env c.name).refetch = .error () →
        processCluster cfg now factory env st c = some st1)
    ∧ (∀ st c st1 newStats cluster updatedAnn,
        c.hasDeletionTimestamp = false → isClusterReady c = true →
        getClusterStats factory (env c.name).pods st c = (st1, .ok newStats) →
        (env c.name).refetch = .ok cluster → isClusterReady cluster = true →
        runLifecycleRules cfg now newStats cluster.annotations = some (updatedAnn, true) →
        (env c.name).persist = .error () →
        processCluster cfg now factory env st c = some st1)
    ∧ (∀ clusters st,
        (∀ c ∈ clusters, ∀ rc, (env c.name).refetch = .ok rc →
            markClusterForScalingIfPodsHitThresholds cfg rc.annotations ≠ none) →
        ∃ st', UpdateClusterStatus cfg now factory env (.ok clusters) st
          = some (st', .ok ())) := by
  refine ⟨fun e st => rfl, ?_, ?_, ?_, ?_⟩
  · intro st c hd hr herr
    have hcond : (c.hasDeletionTimestamp || !isClusterReady c) = false := by
      rw [hd, hr]; rfl
    unfold processCluster
    rw [hcond]
    cases hp : getClusterStats factory (env c.name).pods st c with
    | mk st1 r =>
        have hr2 : r = .error () := by
          rw [hp] at herr
          exact herr
        subst hr2
        simp only [Bool.false_eq_true, if_false]
  · intro st c st1 newStats hd hr hstats hre
    have hcond : (c.hasDeletionTimestamp || !isClusterReady c) = false := by
      rw [hd, hr]; rfl
    unfold processCluster
    rw [hcond]
    simp only [Bool.false_eq_true, if_false, hstats, hre]
  · intro st c st1 newStats cluster updatedAnn hd hr hstats hre hready hrules hpersist
    have hcond : (c.hasDeletionTimestamp || !isClusterReady c) = false := by
      rw [hd, hr]; rfl
    unfold processCluster
    rw [hcond]
    simp only [Bool.false_eq_true, if_false, hstats, hre, hready, hrules, hpersist]
    rfl
  · intro clusters st h
    unfold UpdateClusterStatus
    cases hfold : clusters.foldlM (processCluster cfg now factory env)
        (reconcileKnownSet factory st clusters).1 with
    | none =>
        exact absurd hfold
          (foldlM_processCluster_ne_none cfg now factory env clusters
            (reconcileKnownSet factory st clusters).1 h)
    | some st3 =>
        exact ⟨st3, by simp only [hfold]⟩

/-- C8 witnessed: a pass whose list fails returns the error on an
unchanged state, and a pass over one ready cluster whose stats collection
fails (no client and a failing factory) completes with success without
processing that cluster's annotations. -/
theorem c8_failure_isolation_witness :
    UpdateClusterStatus ⟨1800, 80, 20⟩ 1000 (fun _ => none)
        (fun _ => { pods := ⟨.error (), .ok [], .ok 0, .ok 0⟩,
                    refetch := .error (), persist := .ok () })
        (.error ()) (CCState.mk [] [] false 0 [])
      = some ((CCState.mk [] [] false 0 []), .error ())
    ∧ ∃ st', UpdateClusterStatus ⟨1800, 80, 20⟩ 1000 (fun _ => none)
        (fun _ => { pods := ⟨.error (), .ok [], .ok 0, .ok 0⟩,
                    refetch := .error (), persist := .ok () })
        (.ok [⟨"c0", [], false, [⟨ClusterReadyConditionType, ConditionTrue⟩]⟩])
        (CCState.mk [] [] false 0 [])
      = some (st', .ok ()) :=
  ⟨(c8_failure_isolation ⟨1800, 80, 20⟩ 1000 (fun _ => none)
      (fun _ => { pods := ⟨.error (), .ok [], .ok 0, .ok 0⟩,
                  refetch := .error (), persist := .ok () })).1 ()
      (CCState.mk [] [] false 0 []),
   (c8_failure_isolation ⟨1800, 80, 20⟩ 1000 (fun _ => none)
      (fun _ => { pods := ⟨.error (), .ok [], .ok 0, .ok 0⟩,
                  refetch := .error (), persist := .ok () })).2.2.2.2
      [⟨"c0", [], false, [⟨ClusterReadyConditionType, ConditionTrue⟩]⟩]
      (CCState.mk [] [] false 0 [])
      (fun _ _ _ hre => Except.noConfusion hre)⟩

/-! ## C10: ready/unready clusters partition the store -/

theorem length_filter_partition {α : Type} (p : α → Bool) (l : List α) :
    (l.filter p).length + (l.filter fun x => !p x).length = l.length := by
  induction l with
  | nil => rfl
  | cons a t ih =>
      cases hp : p a <;> simp [List.filter_cons, hp] <;> omega

theorem map_clusterDeepCopy (l : List Cluster) : l.map clusterDeepCopy = l := by
  induction l with
  | nil => rfl
  | cons a t ih => simp [ih, clusterDeepCopy]

/-- C10: for a successful list, `GetReadyClusters` and
`GetUnreadyClusters` return (deep copies of) exactly the ready and the
non-ready listed clusters: each listed cluster belongs to exactly one of
the two results, membership in the ready result being equivalent to the
readiness predicate, which holds iff the condition list carries a
`ClusterReady` condition with status `True`; the two result lengths sum
to the listed length; a deep copy equals the original value, so the
returned objects share no structure with the store in the value
semantics; and a failing list is propagated unchanged by both. -/
theorem c10_partition :
    (∀ c, clusterDeepCopy c = c)
    ∧ (∀ e, GetReadyClusters (.error e) = .error e ∧ GetUnreadyClusters (.error e) = .error e)
    ∧ (∀ items : List Cluster,
        GetReadyClusters (.ok items) = .ok (items.filter fun c => isClusterReady c)
        ∧ GetUnreadyClusters (.ok items) = .ok (items.filter fun c => !isClusterReady c)
        ∧ (items.filter fun c => isClusterReady c).length
            + (items.filter fun c => !isClusterReady c).length = items.length)
    ∧ (∀ items : List Cluster, ∀ c, c ∈ items →
        ((c ∈ items.filter fun x => isClusterReady x) ↔ isClusterReady c = true)
        ∧ ((c ∈ items.filter fun x => !isClusterReady x) ↔ isClusterReady c = false)
        ∧ ¬ ((c ∈ items.filter fun x => isClusterReady x)
              ∧ (c ∈ items.filter fun x => !isClusterReady x)))
    ∧ (∀ c, isClusterReady c = true ↔
        ∃ cond ∈ c.conditions, cond.condType = ClusterReadyConditionType
          ∧ cond.status = ConditionTrue) := by
  refine ⟨fun c => rfl, fun e => ⟨rfl, rfl⟩, ?_, ?_, ?_⟩
  · intro items
    refine ⟨?_, ?_, length_filter_partition _ items⟩
    · simp [GetReadyClusters, map_clusterDeepCopy]
    · simp [GetUnreadyClusters, map_clusterDeepCopy]
  · intro items c hmem
    refine ⟨?_, ?_, ?_⟩
    · simp [List.mem_filter, hmem]
    · simp [List.mem_filter, hmem]
    · intro ⟨h1, h2⟩
      rw [List.mem_filter] at h1 h2
      rw [h1.2] at h2
      exact Bool.noConfusion h2.2
  · intro c
    unfold isClusterReady
    rw [List.any_eq_true]
    constructor
    · intro ⟨cond, hc, hp⟩
      rw [Bool.and_eq_true, beq_iff_eq, beq_iff_eq] at hp
      exact ⟨cond, hc, hp⟩
    · intro ⟨cond, hc, hp⟩
      exact ⟨cond, hc, by rw [Bool.and_eq_true, beq_iff_eq, beq_iff_eq]; exact hp⟩

/-- C10 witnessed on a two-cluster store, one ready and one not: the
ready result is exactly the ready cluster, the unready result the other,
the lengths sum to two, and the ready cluster satisfies the
condition-list characterization. -/
theorem c10_partition_witness :
    ((⟨"r", [], false, [⟨ClusterReadyConditionType, ConditionTrue⟩]⟩ : Cluster)
        ∈ ([(⟨"r", [], false, [⟨ClusterReadyConditionType, ConditionTrue⟩]⟩ : Cluster),
            ⟨"u", [], false, []⟩].filter fun x => isClusterReady x)
      ↔ isClusterReady ⟨"r", [], false, [⟨ClusterReadyConditionType, ConditionTrue⟩]⟩ = true)
    ∧ GetReadyClusters (.ok [(⟨"r", [], false,
          [⟨ClusterReadyConditionType, ConditionTrue⟩]⟩ : Cluster), ⟨"u", [], false, []⟩])
        = .ok ([(⟨"r", [], false, [⟨ClusterReadyConditionType, ConditionTrue⟩]⟩ : Cluster),
            ⟨"u", [], false, []⟩].filter fun c => isClusterReady c)
    ∧ (isClusterReady ⟨"r", [], false, [⟨ClusterReadyConditionType, ConditionTrue⟩]⟩ = true ↔
        ∃ cond ∈ ([⟨ClusterReadyConditionType, ConditionTrue⟩] : List ClusterCondition),
          cond.condType = ClusterReadyConditionType ∧ cond.status = ConditionTrue) :=
  ⟨(c10_partition.2.2.2.1 [⟨"r", [], false, [⟨ClusterReadyConditionType, ConditionTrue⟩]⟩,
      ⟨"u", [], false, []⟩] ⟨"r", [], false, [⟨ClusterReadyConditionType, ConditionTrue⟩]⟩
      (by decide)).1,
   (c10_partition.2.2.1 [⟨"r", [], false, [⟨ClusterReadyConditionType, ConditionTrue⟩]⟩,
      ⟨"u", [], false, []⟩]).1,
   c10_partition.2.2.2.2 ⟨"r", [], false, [⟨ClusterReadyConditionType, ConditionTrue⟩]⟩⟩

/-! ## C4: known-set reconciliation lemmas -/

theorem syncAddsStep_known (factory : ClientFactory) (st : CCState) (c : Cluster) :
    (syncAddsStep factory st c).knownClusterSet = setInsert st.knownClusterSet c.name := by
  unfold syncAddsStep
  split
  · rename_i h
    simp [setInsert, h]
  · unfold addToClusterSet updateClusterClient
    split
    · split
      · split
        · rfl
        · rfl
      · rfl
    · split
      · rfl
      · rfl

theorem syncAdds_known_mem (factory : ClientFactory) (clusters : List Cluster) :
    ∀ (st : CCState) (m : String),
    m ∈ (syncAdds factory st clusters).knownClusterSet
      ↔ m ∈ st.knownClusterSet ∨ m ∈ clusters.map Cluster.name := by
  induction clusters with
  | nil =>
      intro st m
      simp [syncAdds]
  | cons c cs ih =>
      intro st m
      unfold syncAdds at ih ⊢
      rw [List.foldl_cons, ih, syncAddsStep_known, mem_setInsert]
      simp
      tauto

theorem syncAdds_known_nodup (factory : ClientFactory) (clusters : List Cluster) :
    ∀ st : CCState, st.knownClusterSet.Nodup →
      (syncAdds factory st clusters).knownClusterSet.Nodup := by
  induction clusters with
  | nil =>
      intro st h
      exact h
  | cons c cs ih =>
      intro st h
      unfold syncAdds
      rw [List.foldl_cons]
      exact ih _ (by rw [syncAddsStep_known]; exact nodup_setInsert _ _ h)

theorem delFromClusterSetByName_known (st : CCState) (n : String) :
    (delFromClusterSetByName st n).knownClusterSet = setDelete st.knownClusterSet n := by
  unfold delFromClusterSetByName fireOnClusterChange
  split
  · rfl
  · rfl

theorem delFromClusterSetByName_map (st : CCState) (n : String) :
    (delFromClusterSetByName st n).clusterKubeClientMap
      = listDel st.clusterKubeClientMap n := by
  unfold delFromClusterSetByName fireOnClusterChange
  split
  · rfl
  · rfl

theorem foldl_del_known_mem (dels : List String) :
    ∀ (st : CCState) (m : String),
    m ∈ (dels.foldl delFromClusterSetByName st).knownClusterSet
      ↔ m ∈ st.knownClusterSet ∧ m ∉ dels := by
  induction dels with
  | nil =>
      intro st m
      simp
  | cons a l ih =>
      intro st m
      rw [List.foldl_cons, ih, delFromClusterSetByName_known, mem_setDelete]
      simp
      tauto

theorem listGet_listDel_of_none {α : Type} (m : List (String × α)) (k n : String)
    (h : listGet m n = none) : listGet (listDel m k) n = none := by
  by_cases hk : k = n
  · rw [hk, listGet_listDel_self]
  · rw [listGet_listDel_ne _ _ _ hk, h]

theorem foldl_del_map_none (dels : List String) :
    ∀ (st : CCState) (n : String), listGet st.clusterKubeClientMap n = none →
    listGet (dels.foldl delFromClusterSetByName st).clusterKubeClientMap n = none := by
  induction dels with
  | nil =>
      intro st n h
      exact h
  | cons a l ih =>
      intro st n h
      rw [List.foldl_cons]
      exact ih _ n (by rw [delFromClusterSetByName_map]; exact listGet_listDel_of_none _ _ _ h)

theorem foldl_del_map_mem (dels : List String) :
    ∀ (st : CCState) (n : String), n ∈ dels →
    listGet (dels.foldl delFromClusterSetByName st).clusterKubeClientMap n = none := by
  induction dels with
  | nil =>
      intro st n h
      exact absurd h (List.not_mem_nil n)
  | cons a l ih =>
      intro st n h
      rw [List.foldl_cons]
      rcases List.mem_cons.mp h with h1 | h2
      · exact foldl_del_map_none l _ n
          (by rw [delFromClusterSetByName_map, h1]; exact listGet_listDel_self _ _)
      · exact ih _ n h2

theorem foldl_insert_mem (l : List String) :
    ∀ (acc : StringSet) (m : String),
    m ∈ l.foldl setInsert acc ↔ m ∈ acc ∨ m ∈ l := by
  induction l with
  | nil =>
      intro acc m
      simp
  | cons a t ih =>
      intro acc m
      rw [List.foldl_cons, ih, mem_setInsert]
      simp
      tauto

theorem processCluster_known (cfg : Config) (now : Int) (factory : ClientFactory)
    (env : PassEnv) (st : CCState) (c : Cluster) (st2 : CCState)
    (h : processCluster cfg now factory env st c = some st2) :
    st2.knownClusterSet = st.knownClusterSet := by
  unfold processCluster at h
  split at h
  · rw [← Option.some.inj h]
  · rename_i hcond
    split at h
    · rename_i st1 e heq
      rw [← Option.some.inj h]
      have h1 : (getClusterStats factory (env c.name).pods st c).1 = st1 :=
        congrArg Prod.fst heq
      rw [← h1, (getClusterStats_fst_fields factory (env c.name).pods st c).1]
    · rename_i st1 newStats heq
      have h1 : (getClusterStats factory (env c.name).pods st c).1 = st1 :=
        congrArg Prod.fst heq
      have hk1 : st1.knownClusterSet = st.knownClusterSet := by
        rw [← h1, (getClusterStats_fst_fields factory (env c.name).pods st c).1]
      split at h
      · rw [← Option.some.inj h]
        exact hk1
      · split at h
        · rw [← Option.some.inj h]
          exact hk1
        · split at h
          · exact absurd h (by simp)
          · rw [← Option.some.inj h]
            exact hk1
          · split at h
            · rw [← Option.some.inj h]
              exact hk1
            · rw [← Option.some.inj h]
              unfold fireOnClusterChange
              split
              · exact hk1
              · exact hk1

theorem foldlM_processCluster_known (cfg : Config) (now : Int) (factory : ClientFactory)
    (env : PassEnv) (clusters : List Cluster) :
    ∀ (st st' : CCState),
    clusters.foldlM (processCluster cfg now factory env) st = some st' →
    st'.knownClusterSet = st.knownClusterSet := by
  induction clusters with
  | nil =>
      intro st st' h
      simp [List.foldlM] at h
      rw [h]
  | cons c cs ih =>
      intro st st' h
      rw [List.foldlM_cons] at h
      cases hpc : processCluster cfg now factory env st c with
      | none =>
          rw [hpc] at h
          exact absurd h (by simp)
      | some st2 =>
          rw [hpc] at h
          rw [Option.bind_eq_bind, Option.some_bind] at h
          rw [ih st2 st' h,
            processCluster_known cfg now factory env st c st2 hpc]

theorem reconcileDeletes_spec (stA : CCState) (clusters : List Cluster)
    (known0 : StringSet)
    (hmem : ∀ m, m ∈ stA.knownClusterSet ↔ m ∈ known0 ∨ m ∈ clusters.map Cluster.name)
    (hnodupA : stA.knownClusterSet.Nodup)
    (hnamesNodup : (clusters.map Cluster.name).Nodup) :
    (∀ n, n ∈ (reconcileDeletes stA clusters).1.knownClusterSet
        ↔ n ∈ clusters.map Cluster.name)
    ∧ (reconcileDeletes stA clusters).2.Nodup
    ∧ (∀ n, n ∈ (reconcileDeletes stA clusters).2
        ↔ n ∈ known0 ∧ n ∉ clusters.map Cluster.name)
    ∧ (∀ n, n ∈ (reconcileDeletes stA clusters).2 →
        listGet (reconcileDeletes stA clusters).1.clusterKubeClientMap n = none
        ∧ n ∉ (reconcileDeletes stA clusters).1.knownClusterSet) := by
  unfold reconcileDeletes
  by_cases hlen : stA.knownClusterSet.length ≠ clusters.length
  · simp only [if_pos hlen]
    have hobs : ∀ m, m ∈ (clusters.map Cluster.name).foldl setInsert []
        ↔ m ∈ clusters.map Cluster.name := by
      intro m
      rw [foldl_insert_mem]
      simp
    have hdels : ∀ m, m ∈ setDifference stA.knownClusterSet
        ((clusters.map Cluster.name).foldl setInsert [])
        ↔ m ∈ known0 ∧ m ∉ clusters.map Cluster.name := by
      intro m
      rw [mem_setDifference, hmem, hobs]
      tauto
    have hknown2 : ∀ n, n ∈ ((setDifference stA.knownClusterSet
          ((clusters.map Cluster.name).foldl setInsert [])).foldl
            delFromClusterSetByName stA).knownClusterSet
        ↔ n ∈ clusters.map Cluster.name := by
      intro n
      rw [foldl_del_known_mem, hmem, hdels]
      constructor
      · intro ⟨h1, h2⟩
        rcases h1 with h1 | h1
        · by_cases hn : n ∈ clusters.map Cluster.name
          · exact hn
          · exact absurd ⟨h1, hn⟩ h2
        · exact h1
      · intro hn
        exact ⟨Or.inr hn, fun hd => hd.2 hn⟩
    refine ⟨hknown2, nodup_setDifference _ _ hnodupA, hdels, ?_⟩
    intro n hn
    refine ⟨foldl_del_map_mem _ stA n hn, ?_⟩
    intro hk
    exact ((foldl_del_known_mem _ stA n).mp hk).2 hn
  · simp only [if_neg hlen]
    have hleneq : stA.knownClusterSet.length = clusters.length := not_ne_iff.mp hlen
    have hsubF : (clusters.map Cluster.name).toFinset ⊆ stA.knownClusterSet.toFinset := by
      intro x hx
      rw [List.mem_toFinset] at hx ⊢
      exact (hmem x).mpr (Or.inr hx)
    have hcards : stA.knownClusterSet.toFinset.card
        ≤ (clusters.map Cluster.name).toFinset.card := by
      rw [List.toFinset_card_of_nodup hnodupA, List.toFinset_card_of_nodup hnamesNodup,
        hleneq, List.length_map]
    have heqF : (clusters.map Cluster.name).toFinset = stA.knownClusterSet.toFinset :=
      Finset.eq_of_subset_of_card_le hsubF hcards
    have hiff : ∀ m, m ∈ stA.knownClusterSet ↔ m ∈ clusters.map Cluster.name := by
      intro m
      rw [← List.mem_toFinset, ← heqF, List.mem_toFinset]
    have hsub0 : ∀ m, m ∈ known0 → m ∈ clusters.map Cluster.name := by
      intro m hm
      exact (hiff m).mp ((hmem m).mpr (Or.inl hm))
    refine ⟨hiff, List.nodup_nil, ?_, ?_⟩
    · intro n
      simp only [List.not_mem_nil, false_iff]
      intro ⟨h1, h2⟩
      exact h2 (hsub0 n h1)
    · intro n hn
      exact absurd hn (List.not_mem_nil n)

/-- C4: after a `fullSync` pass whose list succeeded (and which finished
without a rule-4 panic), the known cluster set holds exactly the listed
names; the delete effects of the pass are exactly one
`delFromClusterSetByName` per name previously known but no longer listed,
each of which is removed from the known set and whose client entry is
removed from the cache. -/
theorem c4_deletion_reconciliation
    (cfg : Config) (now : Int) (factory : ClientFactory) (env : PassEnv)
    (st : CCState) (clusters : List Cluster) (st' : CCState)
    (hknownNodup : st.knownClusterSet.Nodup)
    (hnamesNodup : (clusters.map Cluster.name).Nodup)
    (hpass : UpdateClusterStatus cfg now factory env (.ok clusters) st
      = some (st', .ok ())) :
    (∀ n, n ∈ st'.knownClusterSet ↔ n ∈ clusters.map Cluster.name)
    ∧ (reconcileKnownSet factory st clusters).2.Nodup
    ∧ (∀ n, n ∈ (reconcileKnownSet factory st clusters).2
        ↔ n ∈ st.knownClusterSet ∧ n ∉ clusters.map Cluster.name)
    ∧ (∀ n, n ∈ (reconcileKnownSet factory st clusters).2 →
        listGet (reconcileKnownSet factory st clusters).1.clusterKubeClientMap n = none
        ∧ n ∉ (reconcileKnownSet factory st clusters).1.knownClusterSet) := by
  have hspec := reconcileDeletes_spec (syncAdds factory st clusters) clusters
    st.knownClusterSet (syncAdds_known_mem factory clusters st)
    (syncAdds_known_nodup factory clusters st hknownNodup) hnamesNodup
  have hrec : reconcileKnownSet factory st clusters
      = reconcileDeletes (syncAdds factory st clusters) clusters := rfl
  have hst'known : st'.knownClusterSet
      = (reconcileKnownSet factory st clusters).1.knownClusterSet := by
    unfold UpdateClusterStatus at hpass
    simp only [] at hpass
    cases hfold : clusters.foldlM (processCluster cfg now factory env)
        (reconcileKnownSet factory st clusters).1 with
    | none =>
        rw [hfold] at hpass
        exact absurd hpass (by simp)
    | some st3 =>
        rw [hfold] at hpass
        have h3 : st3 = st' := congrArg Prod.fst (Option.some.inj hpass)
        rw [← h3]
        exact foldlM_processCluster_known cfg now factory env clusters
          (reconcileKnownSet factory st clusters).1 st3 hfold
  refine ⟨?_, ?_, ?_, ?_⟩
  · intro n
    rw [hst'known, hrec]
    exact hspec.1 n
  · rw [hrec]
    exact hspec.2.1
  · intro n
    rw [hrec]
    exact hspec.2.2.1 n
  · intro n
    rw [hrec]
    exact hspec.2.2.2 n

/-- C4 witnessed at the claim's concrete scenario: KnownClusterSet
{A,B,C}, a list returning {A,C}: the pass's delete-effect list is exactly
["B"] (one `onDelete("B")`-equivalent), B's client handle leaves the
cache, and the known set becomes {A,C}. -/
theorem c4_deletion_reconciliation_witness :
    (reconcileKnownSet (fun _ => some ⟨1⟩)
        (CCState.mk ["A", "B", "C"] [("B", ⟨9⟩)] true 0 [])
        [⟨"A", [], false, []⟩, ⟨"C", [], false, []⟩]).2 = ["B"]
    ∧ (∀ n, n ∈ (CCState.mk ["A", "C"] ([] : List (String × ClusterClient)) true 1
          ([] : List (String × Ann))).knownClusterSet
        ↔ n ∈ [⟨"A", [], false, []⟩, (⟨"C", [], false, []⟩ : Cluster)].map Cluster.name)
    ∧ (∀ n, n ∈ (reconcileKnownSet (fun _ => some ⟨1⟩)
          (CCState.mk ["A", "B", "C"] [("B", ⟨9⟩)] true 0 [])
          [⟨"A", [], false, []⟩, ⟨"C", [], false, []⟩]).2 →
        listGet (reconcileKnownSet (fun _ => some ⟨1⟩)
          (CCState.mk ["A", "B", "C"] [("B", ⟨9⟩)] true 0 [])
          [⟨"A", [], false, []⟩, ⟨"C", [], false, []⟩]).1.clusterKubeClientMap n = none
        ∧ n ∉ (reconcileKnownSet (fun _ => some ⟨1⟩)
          (CCState.mk ["A", "B", "C"] [("B", ⟨9⟩)] true 0 [])
          [⟨"A", [], false, []⟩, ⟨"C", [], false, []⟩]).1.knownClusterSet) :=
  ⟨by decide,
   (c4_deletion_reconciliation ⟨1800, 80, 20⟩ 1000 (fun _ => some ⟨1⟩)
     (fun _ => { pods := ⟨.error (), .ok [], .ok 0, .ok 0⟩,
                 refetch := .error (), persist := .ok () })
     (CCState.mk ["A", "B", "C"] [("B", ⟨9⟩)] true 0 [])
     [⟨"A", [], false, []⟩, ⟨"C", [], false, []⟩]
     (CCState.mk ["A", "C"] [] true 1 [])
     (by decide) (by decide) (by decide)).1,
   (c4_deletion_reconciliation ⟨1800, 80, 20⟩ 1000 (fun _ => some ⟨1⟩)
     (fun _ => { pods := ⟨.error (), .ok [], .ok 0, .ok 0⟩,
                 refetch := .error (), persist := .ok () })
     (CCState.mk ["A", "B", "C"] [("B", ⟨9⟩)] true 0 [])
     [⟨"A", [], false, []⟩, ⟨"C", [], false, []⟩]
     (CCState.mk ["A", "C"] [] true 1 [])
     (by decide) (by decide) (by decide)).2.2.2⟩

end Navarkos
